import Mathlib

/-!
Shallow embedding of the ROB procedural-generation and entity-lifecycle core
(src/runtime/world/MapGenerator.js, the World/Invariants/Enemies modules) in
Lean 4, together with proofs settling the frozen claims about it.

Modelling conventions:
* JS numbers are modelled as exact rationals (ℚ).  The embedding therefore has
  no NaN/Infinity values; `Number.isFinite` holds for every modelled number.
* `Math.hypot(dx,dy) < c` is embedded as the exact real comparison
  `0 < c ∧ dx^2 + dy^2 < c^2` (equivalent for the real square root), written
  as the decidable boolean `hypotLt`; similarly `hypotLe` for `≤`.
* `SeededRandom.js` is not part of the sources; per the spec it is a seeded
  generator producing a reproducible sequence of floats in [0,1).  It is
  modelled by a stream of rationals together with a cursor (see `SeededRandom`
  below, marked "Modelled from the spec").
* `Math.cos`/`Math.sin` of the host library are modelled by fixed computable
  rational approximations `cosQ`/`sinQ` that agree with the real functions at
  0 — the only argument at which any proof evaluates them.
* JS truthiness of numbers (`x || d`) is embedded by `jsOrQ` (0 is falsy),
  and of strings by `jsOrStr` ("" is falsy).
-/

namespace ROB

/-- Embedding of `Math.floor` on JS numbers. -/
def jsFloor (x : ℚ) : ℚ := (⌊x⌋ : ℤ)

/-- Number of iterations of a JS loop `for (let i = 0; i < c; i++)`. -/
def jsIter (c : ℚ) : Nat := (⌈c⌉ : ℤ).toNat

/-- Embedding of the JS idiom `v || d` for an optional numeric field
(`undefined` and `0` both fall back to the default). -/
def jsOrQ (o : Option ℚ) (d : ℚ) : ℚ :=
  match o with
  | some v => if v = 0 then d else v
  | none => d

/-- Embedding of the JS idiom `s || d` for an optional string field
(`undefined` and `""` both fall back to the default). -/
def jsOrStr (o : Option String) (d : String) : String :=
  match o with
  | some s => if s = "" then d else s
  | none => none.getD d

/-- JS truthiness filter on an optional string (`""` is falsy). -/
def jsTruthyStr (o : Option String) : Option String :=
  match o with
  | some s => if s = "" then none else some s
  | none => none

/-- Exact embedding of the comparison `Math.hypot dx dy < c` on real numbers:
the square root of `dx^2 + dy^2` is `< c` iff `c` is positive and
`dx^2 + dy^2 < c^2`. -/
def hypotLt (dx dy c : ℚ) : Bool := decide (0 < c) && decide (dx ^ 2 + dy ^ 2 < c ^ 2)

/-- Exact embedding of the comparison `Math.hypot dx dy ≤ c` on real numbers. -/
def hypotLe (dx dy c : ℚ) : Bool := decide (0 ≤ c) && decide (dx ^ 2 + dy ^ 2 ≤ c ^ 2)

/-- The JS double `Math.PI` as a rational literal. -/
def mathPI : ℚ := 3.141592653589793

/-- Model of the host `Math.cos` as a fixed computable rational function
(truncated Taylor series).  Proofs only ever evaluate it at 0, where the model
is exact (`cosQ 0 = 1`, as for the host function). -/
def cosQ (x : ℚ) : ℚ := 1 - x ^ 2 / 2 + x ^ 4 / 24 - x ^ 6 / 720 + x ^ 8 / 40320

/-- Model of the host `Math.sin`; exact at 0 (`sinQ 0 = 0`). -/
def sinQ (x : ℚ) : ℚ := x - x ^ 3 / 6 + x ^ 5 / 120 - x ^ 7 / 5040

/-- JS array indexing `xs[i]` for an integer index (out-of-range yields
`undefined`, embedded as `none`). -/
def jsIndex {α : Type} (xs : List α) (i : ℤ) : Option α :=
  if 0 ≤ i then xs.get? i.toNat else none

/-- Modelled from the spec: `SeededRandom.js` is not under src/.  The spec
(§4.1) contracts a generator constructed from a seed that exposes
`nextFloat()` in [0,1), `range`, `int` (inclusive), `pick` and `chance`, with
bit-identical sequences for equal seeds.  It is modelled as the stream of
floats it will produce plus a cursor; `fromSeed` below maps a seed to its
stream through an arbitrary (but fixed) seed-to-stream function, which is all
the determinism arguments need. -/
structure SeededRandom where
  floats : Nat → ℚ
  k : Nat := 0

namespace SeededRandom

/-- Next float of the sequence; advances the cursor. -/
def nextFloat (r : SeededRandom) : ℚ × SeededRandom :=
  (r.floats r.k, { r with k := r.k + 1 })

/-- Modelled from the spec: `range(min,max)` returns a float in [min,max). -/
def range (r : SeededRandom) (lo hi : ℚ) : ℚ × SeededRandom :=
  let p := r.nextFloat
  (lo + p.1 * (hi - lo), p.2)

/-- Modelled from the spec: `int(min,max)` returns an integer in [min,max]
(inclusive). -/
def int (r : SeededRandom) (lo hi : ℚ) : ℤ × SeededRandom :=
  let p := r.nextFloat
  (⌊lo + p.1 * (hi - lo + 1)⌋, p.2)

/-- Modelled from the spec: `pick(list)` returns a uniformly picked element
(`undefined`, i.e. `none`, on an empty list). -/
def pick {α : Type} (r : SeededRandom) (xs : List α) : Option α × SeededRandom :=
  let p := r.nextFloat
  (jsIndex xs ⌊p.1 * (xs.length : ℚ)⌋, p.2)

/-- Modelled from the spec: `chance(p)` is true with probability `p`. -/
def chance (r : SeededRandom) (p : ℚ) : Bool × SeededRandom :=
  let q := r.nextFloat
  (decide (q.1 < p), q.2)

/-- Model of `new SeededRandom(seed)`: the seed determines the float stream
through the (unknown but fixed) seed-to-stream function `floatsOf`. -/
def fromSeed (floatsOf : ℚ → Nat → ℚ) (seed : ℚ) : SeededRandom :=
  ⟨floatsOf seed, 0⟩

/-- Well-formedness: every produced float lies in [0,1), as the spec
guarantees for `nextFloat`. -/
def wf (r : SeededRandom) : Prop := ∀ k, 0 ≤ r.floats k ∧ r.floats k < 1

end SeededRandom

/-- Run `n` independent draws of a generator step, collecting the results in
order (embeds a JS `for` loop that pushes one element per iteration). -/
def runN {α : Type} : Nat → (SeededRandom → α × SeededRandom) → SeededRandom →
    List α × SeededRandom
  | 0, _, r => ([], r)
  | n + 1, f, r =>
    let p := f r
    let q := runN n f p.2
    (p.1 :: q.1, q.2)

/-- A 2D point (spawn/exit points, player position). -/
structure Pt where
  x : ℚ
  y : ℚ
deriving DecidableEq, Repr

/-- One enemy spawn descriptor as produced by `generateEnemySpawns` /
`applyPackDirector` (`type`/`patrol` are `rng.pick` results, hence possibly
`undefined`). -/
structure SpawnDesc where
  x : ℚ
  y : ℚ
  type : Option String
  patrol : Option String
  patrolRadius : ℚ
  active : Bool
  killed : Bool
  packId : Option String := none
deriving DecidableEq, Repr

/-- One elite spawn descriptor as produced by `generateEliteSpawns`. -/
structure EliteDesc where
  x : ℚ
  y : ℚ
  type : Option String
  active : Bool
  killed : Bool
deriving DecidableEq, Repr

/-- One obstacle as produced by `generateObstacles`. -/
structure Obstacle where
  x : ℚ
  y : ℚ
  type : Option String
  radius : ℚ
  rotation : ℚ
  destructible : Bool
  hp : ℚ
  damage : ℚ
deriving DecidableEq, Repr

/-- One decoration as produced by `generateDecorations`. -/
structure Decoration where
  x : ℚ
  y : ℚ
  type : Option String
  scale : ℚ
  rotation : ℚ
  alpha : ℚ
deriving DecidableEq, Repr

/-- One star of a parallax starfield. -/
structure Star where
  x : ℚ
  y : ℚ
  size : ℚ
  brightness : ℚ
  twinkle : Bool
deriving DecidableEq, Repr

/-- One nebula wisp of the foreground parallax layer. -/
structure Wisp where
  x : ℚ
  y : ℚ
  width : ℚ
  height : ℚ
  color : String
  alpha : ℚ
  rotation : ℚ
deriving DecidableEq, Repr

/-- The parallax layer block of a zone (scroll speeds are the source's
constants). -/
structure Parallax where
  bgColor : String
  bgStars : List Star
  bgScroll : ℚ
  midStars : List Star
  midScroll : ℚ
  fgObjects : List Wisp
  fgScroll : ℚ
  particlesScroll : ℚ
deriving DecidableEq, Repr

/-- A generated zone (the `pickups` and `portals` fields of the source are
the constant empty list and are omitted). -/
structure Zone where
  seed : ℚ
  width : ℚ
  height : ℚ
  biome : String
  spawn : Pt
  exit : Pt
  enemySpawns : List SpawnDesc
  eliteSpawns : List EliteDesc
  bossSpawn : Option Pt
  obstacles : List Obstacle
  decorations : List Decoration
  parallax : Parallax
deriving DecidableEq, Repr

/-- `cfg.width` / `cfg.height` of an act's generation config: an array of two
numbers, a plain number, or absent (`pickRange` dispatches on this shape). -/
inductive RangeSpec where
  | arr (a b : ℚ)
  | num (n : ℚ)
  | absent
deriving DecidableEq, Repr

/-- The `enemies` block of an act config. -/
structure EnemiesCfg where
  pool : Option (List String) := none
  elitePool : Option (List String) := none
deriving Repr

/-- The `nebula` block of an act's parallax config. -/
structure NebulaCfg where
  enabled : Bool := false
  count : Option ℚ := none
  color : Option String := none
deriving Repr

/-- The `parallax` block of an act config. -/
structure ParallaxCfg where
  bgColor : Option String := none
  nebula : Option NebulaCfg := none
deriving Repr

/-- The `generation` block of an act config. -/
structure GenCfg where
  width : RangeSpec := .absent
  height : RangeSpec := .absent
  enemyDensity : Option ℚ := none
  eliteDensity : Option ℚ := none
  obstacleDensity : Option ℚ := none
deriving Repr

/-- An act/biome configuration as consumed by `MapGenerator.generate`. -/
structure ActConfig where
  generation : GenCfg := {}
  biome : Option String := none
  enemies : Option EnemiesCfg := none
  parallax : ParallaxCfg := {}
deriving Repr

/-- The global exploration tuning object (`State.data.config.exploration`);
`none` models a missing key (the `typeof x === 'number'` checks). -/
structure Tune where
  enemyDensityMult : Option ℚ := none
  eliteDensityMult : Option ℚ := none
  mapScale : Option ℚ := none
  maxEnemySpawnsPerZone : Option ℚ := none
  enemySpawnMinDistFromSpawn : Option ℚ := none
  enemySpawnMinDistFromExit : Option ℚ := none
  enemySpawnMinDistBetween : Option ℚ := none
  maxEliteSpawnsPerZone : Option ℚ := none
  maxObstaclesPerZone : Option ℚ := none
  maxDecorationsPerZone : Option ℚ := none
  maxStarsBackground : Option ℚ := none
  maxStarsMidground : Option ℚ := none
deriving Repr

/-- One member entry of an explicit pack-template composition. -/
structure PackMember where
  type : String
  min : Option ℚ := none
  max : Option ℚ := none
deriving Repr

/-- One weighted pack template (`data/packs.json`). -/
structure PackTemplate where
  id : Option String := none
  weight : Option ℚ := none
  members : Option (List PackMember) := none
  types : Option (List String) := none
deriving Repr

/-- The pack-template configuration (`State.data.packs`). -/
structure PacksData where
  templates : List PackTemplate := []
  packChance : Option ℚ := none
  packSizeMin : Option ℚ := none
  packSizeMax : Option ℚ := none
  maxPacksPerZone : Option ℚ := none
  memberSpacing : Option ℚ := none
  minDistFromSpawn : Option ℚ := none
  minDistFromExit : Option ℚ := none
deriving Repr

/-- The `options` argument of `MapGenerator.generate`. -/
structure GenOptions where
  depth : Option ℚ := none
  mods : List String := []
deriving Repr

namespace MapGenerator

/-- The `pickRange` helper of `MapGenerator.generate`. -/
def pickRange (r : SeededRandom) (v : RangeSpec) (fmin fmax : ℚ) :
    ℚ × SeededRandom :=
  match v with
  | .arr a b =>
    let p := r.int a b
    ((p.1 : ℚ), p.2)
  | .num n => (n, r)
  | .absent =>
    let p := r.int fmin fmax
    ((p.1 : ℚ), p.2)

/-- `MapGenerator.generateSpawnPoint`: spawn on one of three edges (the `cfg`
argument is unused in the source as well). -/
def generateSpawnPoint (rng : SeededRandom) (w h : ℚ) : Pt × SeededRandom :=
  let e := rng.pick ["bottom", "left", "right"]
  let margin : ℚ := 100
  match e.1 with
  | some "bottom" =>
    let p := e.2.range margin (w - margin)
    (⟨p.1, h - margin⟩, p.2)
  | some "left" =>
    let p := e.2.range margin (h - margin)
    (⟨margin, p.1⟩, p.2)
  | some "right" =>
    let p := e.2.range margin (h - margin)
    (⟨w - margin, p.1⟩, p.2)
  | _ => (⟨w / 2, h - margin⟩, e.2)

/-- `MapGenerator.generateExitPoint`: the exit is chosen by coordinate tests
on the spawn point. -/
def generateExitPoint (rng : SeededRandom) (spawn : Pt) (w h : ℚ) :
    Pt × SeededRandom :=
  let margin : ℚ := 100
  if spawn.y > h / 2 then
    let p := rng.range margin (w - margin)
    (⟨p.1, margin⟩, p.2)
  else if spawn.x < w / 2 then
    let p := rng.range margin (h - margin)
    (⟨w - margin, p.1⟩, p.2)
  else
    let p := rng.range margin (h - margin)
    (⟨margin, p.1⟩, p.2)

/-- One rejection-sampling pass of `generateEnemySpawns` (the body of its
bounded `for` loop; `fuel` is the remaining iteration budget `count*3 - i`). -/
def enemySpawnLoop (pool : List String) (w h : ℚ) (spawn exit : Pt)
    (minDistFromSpawn minDistFromExit minDistBetween count : ℚ) :
    Nat → List SpawnDesc → SeededRandom → List SpawnDesc × SeededRandom
  | 0, acc, r => (acc, r)
  | fuel + 1, acc, r =>
    if (acc.length : ℚ) < count then
      let px := r.range 100 (w - 100)
      let py := px.2.range 100 (h - 100)
      let x := px.1
      let y := py.1
      if hypotLt (x - spawn.x) (y - spawn.y) minDistFromSpawn then
        enemySpawnLoop pool w h spawn exit minDistFromSpawn minDistFromExit
          minDistBetween count fuel acc py.2
      else if hypotLt (x - exit.x) (y - exit.y) minDistFromExit then
        enemySpawnLoop pool w h spawn exit minDistFromSpawn minDistFromExit
          minDistBetween count fuel acc py.2
      else if acc.any (fun s => hypotLt (x - s.x) (y - s.y) minDistBetween) then
        enemySpawnLoop pool w h spawn exit minDistFromSpawn minDistFromExit
          minDistBetween count fuel acc py.2
      else
        let pt := py.2.pick pool
        let pp := pt.2.pick ["static", "circle", "line", "wander"]
        let pr := pp.2.int 50 150
        enemySpawnLoop pool w h spawn exit minDistFromSpawn minDistFromExit
          minDistBetween count fuel
          (acc ++ [⟨x, y, pt.1, pp.1, (pr.1 : ℚ), false, false, none⟩]) pr.2
    else (acc, r)

/-- `MapGenerator.generateEnemySpawns`. -/
def generateEnemySpawns (tune : Tune) (rng : SeededRandom) (pool : List String)
    (density w h : ℚ) (spawn exit : Pt) : List SpawnDesc × SeededRandom :=
  let maxSpawns := tune.maxEnemySpawnsPerZone.getD 120
  let countRaw := jsFloor (w * h * density)
  let count := max 0 (min countRaw maxSpawns)
  let minDistFromSpawn := tune.enemySpawnMinDistFromSpawn.getD 300
  let minDistFromExit := tune.enemySpawnMinDistFromExit.getD 200
  let minDistBetween := tune.enemySpawnMinDistBetween.getD 150
  enemySpawnLoop pool w h spawn exit minDistFromSpawn minDistFromExit
    minDistBetween count (jsIter (count * 3)) [] rng

/-- Swap of two array cells (the body of a Fisher–Yates step). -/
def jsSwap {α : Type} (l : List α) (i j : Nat) : List α :=
  match l.get? i, l.get? j with
  | some a, some b => (l.set i b).set j a
  | _, _ => l

/-- Fisher–Yates shuffle steps: at index `i` swap with `rng.int(0, i)`,
walking `i` down to 1. -/
def fyGo : Nat → List Nat → SeededRandom → List Nat × SeededRandom
  | 0, l, r => (l, r)
  | i + 1, l, r =>
    let p := r.int 0 ((i + 1 : Nat) : ℚ)
    fyGo i (jsSwap l (i + 1) p.1.toNat) p.2

/-- The deterministic index shuffle of `applyPackDirector`. -/
def fisherYates (rng : SeededRandom) (l : List Nat) : List Nat × SeededRandom :=
  fyGo (l.length - 1) l rng

/-- Template weight with the source's default (`typeof t.weight === 'number' ?
t.weight : 1`). -/
def templateWeight (t : PackTemplate) : ℚ := t.weight.getD 1

/-- The subtraction walk of the weighted template pick. -/
def pickTemplateAux : List PackTemplate → ℚ → Option PackTemplate
  | [], _ => none
  | t :: rest, r =>
    if r - templateWeight t ≤ 0 then some t else pickTemplateAux rest (r - templateWeight t)

/-- The `pickTemplate` helper of `applyPackDirector` (weighted pick, falling
back to the first template). -/
def pickTemplate (ts : List PackTemplate) (rng : SeededRandom) :
    Option PackTemplate × SeededRandom :=
  let total := ts.foldl (fun acc t => acc + templateWeight t) 0
  let p := rng.range 0 total
  ((pickTemplateAux ts p.1).orElse (fun _ => ts.head?), p.2)

/-- Explicit member composition: one `rng.int(min,max)` per member entry,
replicating its type that many times. -/
def memberTypesGo : List PackMember → SeededRandom → List String × SeededRandom
  | [], r => ([], r)
  | mm :: rest, r =>
    let mi := mm.min.getD 1
    let ma := mm.max.getD mi
    let p := r.int mi ma
    let q := memberTypesGo rest p.2
    (List.replicate p.1.toNat mm.type ++ q.1, q.2)

/-- The `memberTypes` construction of `applyPackDirector` (null when the
template has no explicit members, or when they produce an empty list). -/
def buildMemberTypes (tpl : Option PackTemplate) (r : SeededRandom) :
    Option (List String) × SeededRandom :=
  match tpl with
  | some t =>
    match t.members with
    | some ms =>
      if 0 < ms.length then
        let p := memberTypesGo ms r
        (if p.1.length < 1 then none else some p.1, p.2)
      else (none, r)
    | none => (none, r)
  | none => (none, r)

/-- Budget consumption: take the first `need` not-yet-used indices from the
remaining shuffle order (the inner `kk` loop of `applyPackDirector`). -/
def takeUnused (used : List Nat) : List Nat → ℤ → List Nat
  | [], _ => []
  | j :: rest, need =>
    if need ≤ 0 then []
    else if used.contains j then takeUnused used rest need
    else j :: takeUnused used rest (need - 1)

/-- The anchor distance test of `applyPackDirector` (`ds >= minDistFromSpawn
&& de >= minDistFromExit`). -/
def anchorOk (minDS minDE : ℚ) (spawnPt exitPt : Pt) (p : SpawnDesc) : Bool :=
  !hypotLt (p.x - spawnPt.x) (p.y - spawnPt.y) minDS &&
    !hypotLt (p.x - exitPt.x) (p.y - exitPt.y) minDE

/-- Template type pick (`tpl && Array.isArray(tpl.types) &&
tpl.types.length > 0` branch). -/
def packTypeFromTemplate (tpl : Option PackTemplate) (r : SeededRandom) :
    Option String × SeededRandom :=
  match tpl with
  | some t =>
    match t.types with
    | some types => if 0 < types.length then r.pick types else (none, r)
    | none => (none, r)
  | none => (none, r)

/-- Placement and typing of the `m`-th pack member around its anchor. -/
def packMember (anchor : SpawnDesc) (tpl : Option PackTemplate)
    (memberTypes : Option (List String)) (size : ℤ) (pool : List String)
    (spacing : ℚ) (m : Nat) (r : SeededRandom) : SpawnDesc × SeededRandom :=
  let pa := r.range 0 (mathPI * 2)
  let pd := pa.2.range 30 spacing
  let px := anchor.x + cosQ pa.1 * pd.1
  let py := anchor.y + sinQ pa.1 * pd.1
  let tr : Option String × SeededRandom :=
    match memberTypes with
    | some ts =>
      if (ts.length : ℤ) = size then (ts.get? m, pd.2)
      else packTypeFromTemplate tpl pd.2
    | none => packTypeFromTemplate tpl pd.2
  let tfin : Option String × SeededRandom :=
    match jsTruthyStr tr.1 with
    | some s => (some s, tr.2)
    | none => tr.2.pick pool
  ({ x := px, y := py, type := tfin.1, patrol := anchor.patrol,
     patrolRadius := anchor.patrolRadius, active := false, killed := false,
     packId := some (jsOrStr (tpl.bind (fun t => t.id)) "pack") }, tfin.2)

/-- Emission of all `size` members of one pack (`for m in 0..size-1`). -/
def packMembersGo (anchor : SpawnDesc) (tpl : Option PackTemplate)
    (memberTypes : Option (List String)) (size : ℤ) (pool : List String)
    (spacing : ℚ) : Nat → Nat → SeededRandom → List SpawnDesc × SeededRandom
  | 0, _, r => ([], r)
  | fuel + 1, m, r =>
    let p := packMember anchor tpl memberTypes size pool spacing m r
    let q := packMembersGo anchor tpl memberTypes size pool spacing fuel (m + 1) p.2
    (p.1 :: q.1, q.2)

/-- The fixed context of the pack-director walk. -/
structure PackCtx where
  spawns : List SpawnDesc
  pool : List String
  spawnPt : Pt
  exitPt : Pt
  templates : List PackTemplate
  packChance : ℚ
  minSize : ℚ
  maxSize : ℚ
  maxPacks : ℚ
  spacing : ℚ
  minDS : ℚ
  minDE : ℚ

/-- The main anchor walk of `applyPackDirector` over the shuffled index order;
returns (used indices, emitted pack members, rng). -/
def packLoop (c : PackCtx) : List Nat → List Nat → List SpawnDesc → Nat →
    SeededRandom → List Nat × List SpawnDesc × SeededRandom
  | [], used, out, _, r => (used, out, r)
  | i :: rest, used, out, made, r =>
    if ¬((made : ℚ) < c.maxPacks) then (used, out, r)
    else if used.contains i then packLoop c rest used out made r
    else
      match c.spawns.get? i with
      | none => packLoop c rest used out made r
      | some anchor =>
        if !(anchorOk c.minDS c.minDE c.spawnPt c.exitPt anchor) then
          packLoop c rest used out made r
        else
          let pc := r.range 0 1
          if pc.1 > c.packChance then packLoop c rest used out made pc.2
          else
            let tp := pickTemplate c.templates pc.2
            let mt := buildMemberTypes tp.1 tp.2
            let szp : ℤ × SeededRandom :=
              match mt.1 with
              | some ts => ((ts.length : ℤ), mt.2)
              | none => mt.2.int c.minSize c.maxSize
            let used1 := i :: used
            let consumed := takeUnused used1 rest (szp.1 - 1)
            let used2 := consumed ++ used1
            let mem := packMembersGo anchor tp.1 mt.1 szp.1 c.pool c.spacing
              szp.1.toNat 0 szp.2
            packLoop c rest used2 (out ++ mem.1) (made + 1) mem.2

/-- `MapGenerator.applyPackDirector`. -/
def applyPackDirector (packs : Option PacksData) (rng : SeededRandom)
    (spawns : List SpawnDesc) (pool : List String) (spawnPt exitPt : Pt) :
    List SpawnDesc × SeededRandom :=
  match packs with
  | none => (spawns, rng)
  | some pd =>
    if pd.templates.length = 0 then (spawns, rng)
    else
      let packChance := pd.packChance.getD 0.7
      let minSize := pd.packSizeMin.getD 3
      let maxSize := pd.packSizeMax.getD 5
      let maxPacks := pd.maxPacksPerZone.getD 6
      let spacing := pd.memberSpacing.getD 120
      let minDS := pd.minDistFromSpawn.getD 350
      let minDE := pd.minDistFromExit.getD 250
      if (spawns.length : ℚ) < minSize then (spawns, rng)
      else
        let sh := fisherYates rng (List.range spawns.length)
        let c : PackCtx := ⟨spawns, pool, spawnPt, exitPt, pd.templates,
          packChance, minSize, maxSize, maxPacks, spacing, minDS, minDE⟩
        let res := packLoop c sh.1 [] [] 0 sh.2
        (res.2.1 ++ (List.range spawns.length).filterMap
          (fun i => if res.1.contains i then none else spawns.get? i),
         res.2.2)

/-- `MapGenerator.generateEliteSpawns` (note the `Math.max(1, ...)` floor). -/
def generateEliteSpawns (tune : Tune) (rng : SeededRandom) (pool : List String)
    (density w h : ℚ) : List EliteDesc × SeededRandom :=
  let maxElites := tune.maxEliteSpawnsPerZone.getD 8
  let countRaw := jsFloor (w * h * density)
  let count := max 1 (min countRaw maxElites)
  runN (jsIter count) (fun r =>
    let px := r.range 200 (w - 200)
    let py := px.2.range 200 (h - 200)
    let pt := py.2.pick pool
    (⟨px.1, py.1, pt.1, false, false⟩, pt.2)) rng

/-- `MapGenerator.generateObstacles`. -/
def generateObstacles (tune : Tune) (rng : SeededRandom) (density w h : ℚ)
    (depth0 : ℚ) (mods : List String) : List Obstacle × SeededRandom :=
  let maxObs := tune.maxObstaclesPerZone.getD 2500
  let d := jsOrQ (some depth0) 1
  let countRaw := jsFloor (w * h * density)
  let count := min countRaw maxObs
  runN (jsIter count) (fun r =>
    let typePool := if mods.contains "MINEFIELD" then
        ["asteroid", "debris", "mine", "mine"] else ["asteroid", "debris"]
    let tp := r.pick typePool
    let px := tp.2.range 100 (w - 100)
    let py := px.2.range 100 (h - 100)
    let rad : ℚ × SeededRandom :=
      if tp.1 = some "asteroid" then
        let p := py.2.int 30 80
        ((p.1 : ℚ), p.2)
      else
        let p := py.2.int 15 30
        ((p.1 : ℚ), p.2)
    let rot := rad.2.range 0 (mathPI * 2)
    let hpP : ℚ × SeededRandom :=
      if tp.1 = some "asteroid" then
        let p := rot.2.int 25 60
        ((p.1 : ℚ), p.2)
      else if tp.1 = some "mine" then ((6 : ℚ), rot.2)
      else ((12 : ℚ), rot.2)
    (⟨px.1, py.1, tp.1, rad.1, rot.1, true, hpP.1,
      if tp.1 = some "mine" then 8 + jsFloor (d * 0.25) else 0⟩, hpP.2)) rng

/-- `MapGenerator.generateDecorations` (density is the hard-coded 0.001). -/
def generateDecorations (tune : Tune) (rng : SeededRandom)
    (biome : Option String) (w h : ℚ) : List Decoration × SeededRandom :=
  let maxDec := tune.maxDecorationsPerZone.getD 6000
  let countRaw := jsFloor (w * h * 0.001)
  let count := min countRaw maxDec
  let pool : List String :=
    match biome with
    | some "space" => ["star_cluster", "nebula_wisp", "dust_cloud"]
    | some "asteroid" => ["rock_small", "crystal", "ice_chunk"]
    | some "station" => ["debris", "panel", "wire"]
    | _ => ["star_cluster", "nebula_wisp", "dust_cloud"]
  runN (jsIter count) (fun r =>
    let px := r.range 0 w
    let py := px.2.range 0 h
    let pt := py.2.pick pool
    let sc := pt.2.range 0.5 1.5
    let rot := sc.2.range 0 (mathPI * 2)
    let al := rot.2.range 0.3 0.7
    (⟨px.1, py.1, pt.1, sc.1, rot.1, al.1⟩, al.2)) rng

/-- `MapGenerator.generateStarfield` (the cap applies only when positive, and
a zero floor of the cap is falsy in the `cap ? _ : _` test). -/
def generateStarfield (rng : SeededRandom) (w h density : ℚ)
    (maxCount : Option ℚ) : List Star × SeededRandom :=
  let countRaw := jsFloor (w * h * density)
  let cap : Option ℚ :=
    match maxCount with
    | some m => if 0 < m then some (jsFloor m) else none
    | none => none
  let count :=
    match cap with
    | some cp => if cp = 0 then countRaw else min countRaw cp
    | none => countRaw
  runN (jsIter count) (fun r =>
    let px := r.range 0 w
    let py := px.2.range 0 h
    let sz := py.2.range 0.5 2
    let br := sz.2.range 0.3 1
    let tw := br.2.chance 0.3
    (⟨px.1, py.1, sz.1, br.1, tw.1⟩, tw.2)) rng

/-- `MapGenerator.generateNebulaWisps`. -/
def generateNebulaWisps (rng : SeededRandom) (w h : ℚ)
    (ncfg : Option NebulaCfg) : List Wisp × SeededRandom :=
  match ncfg with
  | none => ([], rng)
  | some n =>
    if !n.enabled then ([], rng)
    else
      let cp : ℚ × SeededRandom :=
        match n.count with
        | some cnum =>
          if cnum = 0 then
            let p := rng.int 3 8
            ((p.1 : ℚ), p.2)
          else (cnum, rng)
        | none =>
          let p := rng.int 3 8
          ((p.1 : ℚ), p.2)
      let color := jsOrStr n.color "#4400aa"
      runN (jsIter cp.1) (fun r =>
        let px := r.range 0 w
        let py := px.2.range 0 h
        let wd := py.2.range 200 500
        let ht := wd.2.range 100 300
        let al := ht.2.range 0.05 0.15
        let rot := al.2.range 0 (mathPI * 2)
        (⟨px.1, py.1, wd.1, ht.1, color, al.1, rot.1⟩, rot.2)) cp.2

/-- `MapGenerator.generateParallax` (background stars, then midground stars,
then nebula wisps, in rng order). -/
def generateParallax (tune : Tune) (rng : SeededRandom) (actConfig : ActConfig)
    (w h : ℚ) : Parallax × SeededRandom :=
  let cfg := actConfig.parallax
  let maxBg := tune.maxStarsBackground.getD 1800
  let maxMid := tune.maxStarsMidground.getD 1200
  let bg := generateStarfield rng (w * 1.5) (h * 1.5) 0.0003 (some maxBg)
  let mid := generateStarfield bg.2 (w * 1.3) (h * 1.3) 0.0002 (some maxMid)
  let fg := generateNebulaWisps mid.2 w h cfg.nebula
  (⟨jsOrStr cfg.bgColor "#0a0a15", bg.1, 0.1, mid.1, 0.3, fg.1, 0.6, 0.9⟩, fg.2)

/-- `MapGenerator.generate` with the constructed `SeededRandom` made explicit
(the source constructs it from `zoneSeed` on entry; see `generate`). -/
def generateWith (rng0 : SeededRandom) (actConfig : ActConfig) (zoneSeed : ℚ)
    (options : GenOptions) (tune : Tune) (packs : Option PacksData) : Zone :=
  let cfg := actConfig.generation
  let depth := jsOrQ options.depth 1
  let mods := options.mods
  let depthEnemyMult := 1 + min (depth * 0.012) 1.6
  let depthEliteMult := 1 + min (depth * 0.010) 1.2
  let depthObsMult := 1 + min (depth * 0.008) 1.0
  let enemyDensity := jsOrQ cfg.enemyDensity 0.0005 * depthEnemyMult
  let eliteDensity := jsOrQ cfg.eliteDensity 0.00008 * depthEliteMult
  let obstacleDensity := jsOrQ cfg.obstacleDensity 0.0002 * depthObsMult
  let enemyDensity := if mods.contains "BULLET_HELL" then enemyDensity * 1.35 else enemyDensity
  let eliteDensity := if mods.contains "ELITE_PACKS" then eliteDensity * 1.55 else eliteDensity
  let enemyDensity := if mods.contains "FAST_ENEMIES" then enemyDensity * 1.10 else enemyDensity
  let obstacleDensity := if mods.contains "DENSE_OBSTACLES" then obstacleDensity * 1.35 else obstacleDensity
  let obstacleDensity := if mods.contains "MINEFIELD" then obstacleDensity * 1.15 else obstacleDensity
  let crampedMult : ℚ := if mods.contains "CRAMPED_ZONE" then 0.85 else 1.0
  let enemyDensity := match tune.enemyDensityMult with
    | some m => enemyDensity * m
    | none => enemyDensity
  let eliteDensity := match tune.eliteDensityMult with
    | some m => eliteDensity * m
    | none => eliteDensity
  let pw := pickRange rng0 cfg.width 1500 3000
  let ph := pickRange pw.2 cfg.height 1500 3000
  let width := if crampedMult ≠ 1.0 then jsFloor (pw.1 * crampedMult) else pw.1
  let height := if crampedMult ≠ 1.0 then jsFloor (ph.1 * crampedMult) else ph.1
  let mapScale := match tune.mapScale with
    | some m => if 0 < m then m else 1.0
    | none => 1.0
  let width := if mapScale ≠ 1.0 then max 600 (jsFloor (width * mapScale)) else width
  let height := if mapScale ≠ 1.0 then max 600 (jsFloor (height * mapScale)) else height
  let sp := generateSpawnPoint ph.2 width height
  let par := generateParallax tune sp.2 actConfig width height
  let ex := generateExitPoint par.2 sp.1 width height
  let pool := (actConfig.enemies.bind (fun e => e.pool)).getD ["grunt"]
  let es := generateEnemySpawns tune ex.2 pool enemyDensity width height sp.1 ex.1
  let ps := applyPackDirector packs es.2 es.1 pool sp.1 ex.1
  let elitePool := (actConfig.enemies.bind (fun e => e.elitePool)).getD ["commander"]
  let el := generateEliteSpawns tune ps.2 elitePool eliteDensity width height
  let ob := generateObstacles tune el.2 obstacleDensity width height depth mods
  let dec := generateDecorations tune ob.2 actConfig.biome width height
  { seed := zoneSeed, width := width, height := height,
    biome := jsOrStr actConfig.biome "space", spawn := sp.1, exit := ex.1,
    enemySpawns := ps.1, eliteSpawns := el.1, bossSpawn := none,
    obstacles := ob.1, decorations := dec.1, parallax := par.1 }

/-- `MapGenerator.generate`: constructs `new SeededRandom(zoneSeed)` through
the modelled seed-to-stream function and runs the generator. -/
def generate (floatsOf : ℚ → Nat → ℚ) (actConfig : ActConfig) (zoneSeed : ℚ)
    (options : GenOptions) (tune : Tune) (packs : Option PacksData) : Zone :=
  generateWith (SeededRandom.fromSeed floatsOf zoneSeed) actConfig zoneSeed
    options tune packs

end MapGenerator

/-- The behavioral state of an enemy entity; `ret` embeds the source's
string value 'return'. -/
inductive AiState where
  | patrol
  | aggro
  | ret
deriving DecidableEq, Repr

namespace Enemies

/-- The state-transition block of `Enemies.updateExplorationAI`
(MapGenerator.js lines 1310–1318), taking the already-computed distances
`distP = hypot(player - entity)` and `distH = hypot(home - entity)`.
The second component records whether the block zeroed the velocity. -/
def aiTransition (s : AiState)
    (distP distH aggroRange disengageRange leashRange returnThreshold : ℚ) :
    AiState × Bool :=
  if distP ≤ aggroRange then (.aggro, false)
  else if s = .aggro ∧ (distP > disengageRange ∨ distH > leashRange) then
    (.ret, false)
  else if s = .ret ∧ distH ≤ returnThreshold then (.patrol, true)
  else (s, false)

/-- The transition function described by the spec's three rules, verbatim
(for comparison with `aiTransition`): `patrol → aggro` when
`distP ≤ aggroRange`; `aggro → return` when `distP > disengageRange` or
`distH > leashRange`; `return → patrol` (zeroing velocity) when
`distH ≤ returnThreshold`; otherwise the state is unchanged. -/
def specAiTransition (s : AiState)
    (distP distH aggroRange disengageRange leashRange returnThreshold : ℚ) :
    AiState × Bool :=
  match s with
  | .patrol => if distP ≤ aggroRange then (.aggro, false) else (.patrol, false)
  | .aggro =>
    if distP > disengageRange ∨ distH > leashRange then (.ret, false)
    else (.aggro, false)
  | .ret =>
    if distH ≤ returnThreshold then (.patrol, true) else (.ret, false)

end Enemies

/-- The slice of a live enemy read by the zone-lifecycle despawn checks
(`aiState` is `none` when the field was never initialized, e.g. for support
drones). -/
structure WEnemy where
  id : String
  x : ℚ
  y : ℚ
  aiState : Option AiState
  returnThreshold : Option ℚ
deriving DecidableEq, Repr

/-- The slice of a spawn descriptor used by the activation/despawn logic. -/
structure ActiveSpawn where
  x : ℚ
  y : ℚ
  active : Bool
  killed : Bool
  enemyId : Option String
deriving DecidableEq, Repr

namespace World

/-- `World.isInView`: point within the camera view expanded by `margin`. -/
def isInView (x y camX camY screenW screenH margin : ℚ) : Bool :=
  decide (x ≥ camX - margin) && decide (x ≤ camX + screenW + margin) &&
    decide (y ≥ camY - margin) && decide (y ≤ camY + screenH + margin)

/-- `World.despawnEnemy`: remove the first enemy whose id matches the
descriptor's back-reference and deactivate the descriptor. -/
def despawnEnemy (spawn : ActiveSpawn) (enemies : List WEnemy) :
    List WEnemy × ActiveSpawn :=
  (enemies.eraseP (fun e => spawn.enemyId == some e.id),
   { spawn with active := false, enemyId := none })

/-- The per-descriptor despawn check of `World.update` (the identical block
runs for enemy and elite spawns): when the active descriptor has left the
despawn window, force an aggroed entity to `return`, and despawn only once the
entity is no longer aggroed and is within its home threshold of the spawn
point. -/
def despawnCheck (spawn : ActiveSpawn) (enemies : List WEnemy) (player : Pt)
    (camX camY screenW screenH despawnMargin despawnRadius : ℚ) :
    List WEnemy × ActiveSpawn :=
  if spawn.killed then (enemies, spawn)
  else
    let shouldDespawnByView :=
      !isInView spawn.x spawn.y camX camY screenW screenH despawnMargin
    let distFar :=
      !hypotLe (player.x - spawn.x) (player.y - spawn.y) despawnRadius
    if spawn.active && (shouldDespawnByView || distFar) then
      match enemies.find? (fun e => spawn.enemyId == some e.id) with
      | some enemy =>
        let forced :=
          if enemy.aiState == some AiState.aggro then
            { enemy with aiState := some AiState.ret }
          else enemy
        let enemies1 := enemies.map (fun e => if e.id == enemy.id then forced else e)
        let homeThreshold := jsOrQ enemy.returnThreshold 60
        if forced.aiState != some AiState.aggro &&
            hypotLe (enemy.x - spawn.x) (enemy.y - spawn.y) homeThreshold then
          despawnEnemy spawn enemies1
        else (enemies1, spawn)
      | none => despawnEnemy spawn enemies
    else (enemies, spawn)

end World

/-- Outcome of a soft-fuse trim: a console warning or a thrown
`INV_CAP_EXCEEDED` error (the source throws when `softFuseOnCaps` is off). -/
inductive CapEvent where
  | warn (label : String) (overflow : ℤ)
  | error (label : String) (overflow : ℤ)
deriving DecidableEq, Repr

/-- Is the event a (non-fatal) warning? -/
def CapEvent.isWarn : CapEvent → Bool
  | .warn _ _ => true
  | .error _ _ => false

namespace Invariants

/-- `Invariants.capArray`: trim the oldest `length - max` entries in place
when over cap (`splice(0, overflow)`), emitting a warning when the soft fuse
is on and an error otherwise. -/
def capArray {α : Type} (softFuseOnCaps : Bool) (arr : List α) (maxLen : ℤ)
    (label : String) : List α × Option CapEvent :=
  if (arr.length : ℤ) ≤ maxLen then (arr, none)
  else
    let overflow := (arr.length : ℤ) - maxLen
    (arr.drop overflow.toNat,
     some (if softFuseOnCaps then .warn label overflow else .error label overflow))

/-- The entity-cap table (`DEFAULT_CAPS`). -/
structure Caps where
  bullets : ℤ := 2000
  enemyBullets : ℤ := 2000
  enemies : ℤ := 900
  pickups : ℤ := 700
  particles : ℤ := 6500
deriving DecidableEq, Repr

/-- The five tracked collections of `State` seen by the invariant guard. -/
structure SimState (α : Type) where
  bullets : List α
  enemyBullets : List α
  enemies : List α
  pickups : List α
  particles : List α
deriving DecidableEq

/-- `Invariants.postFrame`: cap the five tracked collections in order.  The
finiteness asserts on player fields and sampled entities always pass in the
ℚ model (every rational is a finite JS number) and mutate nothing, so they
are omitted. -/
def postFrame {α : Type} (enabled softFuseOnCaps : Bool) (caps : Caps)
    (st : SimState α) : SimState α × List CapEvent :=
  if !enabled then (st, [])
  else
    let b := capArray softFuseOnCaps st.bullets caps.bullets "State.bullets"
    let eb := capArray softFuseOnCaps st.enemyBullets caps.enemyBullets "State.enemyBullets"
    let en := capArray softFuseOnCaps st.enemies caps.enemies "State.enemies"
    let pk := capArray softFuseOnCaps st.pickups caps.pickups "State.pickups"
    let pt := capArray softFuseOnCaps st.particles caps.particles "State.particles"
    (⟨b.1, eb.1, en.1, pk.1, pt.1⟩, [b.2, eb.2, en.2, pk.2, pt.2].filterMap id)

end Invariants

/-- The `repair` settings attached to a support drone at spawn. -/
structure RepairCfg where
  range : ℚ
  healPctMaxHpPerSec : ℚ
  capPctMaxHpPerSec : ℚ
deriving DecidableEq, Repr

/-- The `orbit` state of a support drone. -/
structure OrbitSt where
  t : ℚ
  radius : ℚ
deriving DecidableEq, Repr

/-- The slice of a live enemy read and written by `Enemies.update` that the
heal-budget argument needs (`tether` holds `tether.targetId`). -/
structure HEnemy where
  id : String
  x : ℚ
  y : ℚ
  vx : ℚ
  vy : ℚ
  hp : ℚ
  maxHP : ℚ
  speed : ℚ
  size : ℚ
  dead : Bool
  isBoss : Bool
  isElite : Bool
  abilities : List String
  repair : Option RepairCfg
  orbit : OrbitSt
  tether : Option String
  aiState : Option AiState
deriving DecidableEq, Repr

namespace Enemies

/-- Candidate filter and score of the repair-drone target selection
(`H` models the host `Math.hypot` value). -/
def droneCandidateScore (H : ℚ → ℚ → ℚ) (e other : HEnemy) : Option ℚ :=
  if other.dead then none
  else if other.id == e.id then none
  else if other.abilities.contains "repairTether" then none
  else
    let d := H (other.x - e.x) (other.y - e.y)
    if d > 650 then none
    else
      let prio : ℚ := if other.isBoss then 1000 else if other.isElite then 200 else 0
      let missing := max 0 (other.maxHP - other.hp)
      some (prio + missing - d * 0.25)

/-- The best-target fold of `updateRepairDroneAI` (initial score `-1e9`);
returns the index and value of the selected ally. -/
def droneSelect (H : ℚ → ℚ → ℚ) (e : HEnemy) (enemies : List HEnemy) :
    Option (Nat × HEnemy) :=
  (enemies.enum.foldl
    (fun acc p =>
      match droneCandidateScore H e p.2 with
      | none => acc
      | some s => if s > acc.2 then (some p, s) else acc)
    ((none : Option (Nat × HEnemy)), (-1000000000 : ℚ))).1

/-- Per-tick heal-budget lookup (`hb[best.id] || 0`). -/
def budGet (b : List (String × ℚ)) (id : String) : ℚ := (b.lookup id).getD 0

/-- Per-tick heal-budget update (`hb[best.id] = used + grant`). -/
def budSet (b : List (String × ℚ)) (id : String) (v : ℚ) : List (String × ℚ) :=
  (id, v) :: b

/-- `charCodeAt(length - 1)` of an entity id. -/
def charCodeLast (s : String) : Nat := (s.toList.getLastD 'a').toNat

/-- `Enemies.updateRepairDroneAI`: select a target, orbit it, and heal it
subject to the shared per-target-per-tick budget; drift toward the player when
no target is eligible.  Returns the updated drone, the (possibly healed)
enemy list and the updated budget. -/
def updateRepairDroneAI (H : ℚ → ℚ → ℚ) (dt : ℚ) (player : Pt) (e : HEnemy)
    (enemies : List HEnemy) (budget : List (String × ℚ)) :
    HEnemy × List HEnemy × List (String × ℚ) :=
  let cfg := e.repair.getD ⟨260, 0.03, 0.04⟩
  match droneSelect H e enemies with
  | some sel =>
    let best := sel.2
    let orbitT := e.orbit.t + dt
    let ang := orbitT * 1.2 + ((charCodeLast e.id % 6 : Nat) : ℚ)
    let desiredX := best.x + cosQ ang * e.orbit.radius
    let desiredY := best.y + sinQ ang * e.orbit.radius
    let dx := desiredX - e.x
    let dy := desiredY - e.y
    let dist0 := H dx dy
    let dist := if dist0 = 0 then 1 else dist0
    let sp := jsOrQ (some e.speed) 90
    let e1 : HEnemy := { e with
      tether := some best.id
      orbit := ⟨orbitT, e.orbit.radius⟩
      vx := dx / dist * sp
      vy := dy / dist * sp }
    let dToTarget := H (best.x - e.x) (best.y - e.y)
    if dToTarget ≤ cfg.range ∧ best.hp > 0 ∧ best.hp < best.maxHP then
      let want := best.maxHP * cfg.healPctMaxHpPerSec * dt
      let cap := best.maxHP * cfg.capPctMaxHpPerSec * dt
      let used := budGet budget best.id
      let grant := max 0 (min want (cap - used))
      if grant > 0 then
        let healed := { best with hp := min best.maxHP (best.hp + grant) }
        (e1, enemies.set sel.1 healed, budSet budget best.id (used + grant))
      else (e1, enemies, budget)
    else (e1, enemies, budget)
  | none =>
    let dx := player.x - e.x
    let dy := player.y - e.y
    let d0 := H dx dy
    let d := if d0 = 0 then 1 else d0
    let sp := jsOrQ (some e.speed) 90 * 0.4
    ({ e with tether := none, vx := dx / d * sp, vy := dy / d * sp },
     enemies, budget)

/-- Velocity integration and zone-bounds clamping of `Enemies.update`. -/
def integrateClamp (dt zoneW zoneH : ℚ) (e : HEnemy) : HEnemy :=
  let x1 := e.x + e.vx * dt
  let y1 := e.y + e.vy * dt
  let margin := max 30 (e.size * 1.2)
  { e with x := max margin (min (zoneW - margin) x1),
           y := max margin (min (zoneH - margin) y1) }

/-- The per-entity walk of `Enemies.update` in exploration mode.  Entities
with the `repairTether` ability run `updateRepairDroneAI` followed by
integration and clamping (their shooting step is a no-op since they are never
in `aggro`).  All other entities are processed by `explore`, the abstracted
composition of `updateExplorationAI`, integration/clamping and
`updateExplorationShooting` — abstracted because it consumes ambient
(unseeded) randomness; the source branch writes positions, velocities and
patrol/attack timers but never `hp`, `maxHP`, `id`, `dead`, `abilities` or
`repair`, which is all the heal-budget theorem assumes of it. -/
def updGo (H : ℚ → ℚ → ℚ) (explore : HEnemy → HEnemy) (dt : ℚ) (player : Pt)
    (zoneW zoneH : ℚ) : Nat → Nat → List HEnemy → List (String × ℚ) →
    List HEnemy × List (String × ℚ)
  | 0, _, l, b => (l, b)
  | fuel + 1, i, l, b =>
    match l.get? i with
    | none => (l, b)
    | some e =>
      if e.dead then updGo H explore dt player zoneW zoneH fuel (i + 1) l b
      else if e.abilities.contains "repairTether" then
        let r := updateRepairDroneAI H dt player e l b
        let e2 := integrateClamp dt zoneW zoneH r.1
        updGo H explore dt player zoneW zoneH fuel (i + 1) (r.2.1.set i e2) r.2.2
      else updGo H explore dt player zoneW zoneH fuel (i + 1) (l.set i (explore e)) b

/-- `Enemies.update` in exploration mode: reset the per-frame heal budget,
walk all enemies, then drop the dead ones. -/
def update (H : ℚ → ℚ → ℚ) (explore : HEnemy → HEnemy) (dt : ℚ) (player : Pt)
    (zoneW zoneH : ℚ) (enemies : List HEnemy) : List HEnemy :=
  let r := updGo H explore dt player zoneW zoneH enemies.length 0 enemies []
  r.1.filter (fun e => !e.dead)

end Enemies

/-- The spacing property claimed for enemy spawn descriptors: at least
`minS` from the zone spawn point, `minE` from the exit point, and pairwise at
least `minB` apart (distances stated via their squares, which is equivalent
for nonnegative minimums). -/
def SpacingInv (spawn exit : Pt) (minS minE minB : ℚ) (L : List SpawnDesc) : Prop :=
  (∀ s ∈ L, minS ^ 2 ≤ (s.x - spawn.x) ^ 2 + (s.y - spawn.y) ^ 2 ∧
      minE ^ 2 ≤ (s.x - exit.x) ^ 2 + (s.y - exit.y) ^ 2) ∧
  L.Pairwise (fun a b => minB ^ 2 ≤ (a.x - b.x) ^ 2 + (a.y - b.y) ^ 2)

/-- The fields of a live enemy that `Enemies.update` never writes (identity,
ability wiring, health ceiling, death flag); the heal-budget argument tracks
their preservation. -/
def keyOf (e : HEnemy) : String × List String × Option RepairCfg × ℚ × Bool :=
  (e.id, e.abilities, e.repair, e.maxHP, e.dead)

/-- Three spawn descriptors used to exercise the pack director. -/
def spawnsC2 : List SpawnDesc :=
  [⟨1000, 1000, some "grunt", some "static", 50, false, false, none⟩,
   ⟨1200, 1000, some "grunt", some "static", 50, false, false, none⟩,
   ⟨1400, 1000, some "grunt", some "static", 50, false, false, none⟩]

/-- A pack configuration with one templated pack, certain pack formation
(`packChance = 0` never skips since `rng.range(0,1) > 0` fails on a 0 draw)
and no anchor distance constraints. -/
def packsC2 : PacksData :=
  { templates := [{ id := some "trio", weight := some 1 }]
    packChance := some 0
    memberSpacing := some 30
    minDistFromSpawn := some 0
    minDistFromExit := some 0 }

/-- A float stream whose only nonzero draw (index 2) makes the first shuffled
anchor fail its pack-formation roll, so the pack formed at the second anchor
finds only one other unconsumed descriptor after it in the shuffle order. -/
def rngC2 : SeededRandom := ⟨fun k => if k = 2 then 3 / 4 else 0, 0⟩

/-- Exploration tuning for the cap counterexample: enemy cap 3, spacing
minimums zeroed, starfields capped at one star, decorations disabled. -/
def tuneC3 : Tune :=
  { maxEnemySpawnsPerZone := some 3
    enemySpawnMinDistFromSpawn := some 0
    enemySpawnMinDistFromExit := some 0
    enemySpawnMinDistBetween := some 0
    maxStarsBackground := some 1
    maxStarsMidground := some 1
    maxDecorationsPerZone := some 0 }

/-- A small act configuration (fixed 600×600 zone, saturating enemy density,
negligible elite/obstacle density). -/
def actC3 : ActConfig :=
  { generation :=
      { width := .num 600
        height := .num 600
        enemyDensity := some 1
        eliteDensity := some (1 / 1000000)
        obstacleDensity := some (1 / 1000000) }
    biome := some "space"
    enemies := some { pool := some ["grunt"] } }

/-- Pack configuration for the cap counterexample (same shape as `packsC2`). -/
def packsC3 : PacksData :=
  { templates := [{ id := some "t", weight := some 1 }]
    packChance := some 0
    memberSpacing := some 30
    minDistFromSpawn := some 0
    minDistFromExit := some 0 }

/-- Seed stream for the cap counterexample: only draw 30 (the first anchor's
pack-formation roll) is nonzero. -/
def floatsC3 : ℚ → Nat → ℚ := fun _ k => if k = 30 then 3 / 4 else 0

/-- The zone generated from `actC3`/`tuneC3`/`packsC3` with seed 42. -/
def zoneC3 : Zone := MapGenerator.generate floatsC3 actC3 42 {} tuneC3 (some packsC3)

/-- Exploration tuning for the spacing counterexample: enemy cap 3, spacing
minimums left at their defaults (300/200/150). -/
def tuneC4 : Tune :=
  { maxEnemySpawnsPerZone := some 3
    maxStarsBackground := some 1
    maxStarsMidground := some 1
    maxDecorationsPerZone := some 0 }

/-- Act configuration for the spacing counterexample (fixed 1500×1500 zone). -/
def actC4 : ActConfig :=
  { generation :=
      { width := .num 1500
        height := .num 1500
        enemyDensity := some 1
        eliteDensity := some (1 / 1000000000)
        obstacleDensity := some (1 / 1000000000) }
    biome := some "space"
    enemies := some { pool := some ["grunt"] } }

/-- Pack configuration for the spacing counterexample. -/
def packsC4 : PacksData :=
  { templates := [{ id := some "t", weight := some 1 }]
    packChance := some 0
    memberSpacing := some 30
    minDistFromSpawn := some 0
    minDistFromExit := some 0 }

/-- Seed stream for the spacing counterexample: the three accepted rejection
samples land at (750,750), (1000,750), (1250,750) (all spacing checks pass);
every pack-placement draw is 0, so all three pack members are emitted at
angle 0 and distance 30 from the anchor — the same point. -/
def floatsC4 : ℚ → Nat → ℚ := fun _ k =>
  if k = 13 ∨ k = 14 ∨ k = 19 ∨ k = 24 then 1 / 2
  else if k = 18 then 9 / 13
  else if k = 23 then 23 / 26
  else 0

/-- The zone generated from `actC4`/`tuneC4`/`packsC4` with seed 7. -/
def zoneC4 : Zone := MapGenerator.generate floatsC4 actC4 7 {} tuneC4 (some packsC4)

/-- Stream for the spawn/exit counterexample: edge pick draws 1/2 (the
'left' edge), the edge offset draws 0.99 (placing the spawn in the lower
half), the exit offset draws 0. -/
def rngC5 : SeededRandom :=
  ⟨fun k => if k = 0 then 1 / 2 else if k = 1 then 99 / 100 else 0, 0⟩

/-- The spawn point generated from `rngC5` in a 1500×1500 zone. -/
def c5spawn : Pt × SeededRandom := MapGenerator.generateSpawnPoint rngC5 1500 1500

/-- The exit point generated for `c5spawn`. -/
def c5exit : Pt × SeededRandom :=
  MapGenerator.generateExitPoint c5spawn.2 c5spawn.1 1500 1500

/-- Concrete support drone used by the heal-budget witness. -/
def wDrone : HEnemy :=
  ⟨"d", 0, 0, 0, 0, 3, 3, 1, 1, false, false, false, ["repairTether"],
    some ⟨1, 1, 1⟩, ⟨0, 0⟩, none, none⟩

/-- Concrete healed ally used by the heal-budget witness. -/
def wAlly : HEnemy :=
  ⟨"a", 0, 0, 0, 0, 5, 10, 1, 1, false, false, false, [], none, ⟨0, 0⟩, none,
    none⟩


/-! Theorems. -/

/-- C1: with fixed act configuration, global tuning, pack-template
configuration, zone seed and options, two independent calls to
`MapGenerator.generate` — each constructing its own `SeededRandom` from the
same seed — produce structurally identical zones (dimensions, spawn/exit,
enemy and elite spawn lists including pack composition, obstacles,
decorations, parallax).  All randomness flows through the seeded generator,
so the zone is a pure function of the inputs. -/
theorem generate_deterministic (F : ℚ → Nat → ℚ) (cfg : ActConfig)
    (tune : Tune) (packs : Option PacksData) (seed : ℚ) (opts : GenOptions)
    (r1 r2 : SeededRandom)
    (h1 : r1 = SeededRandom.fromSeed F seed)
    (h2 : r2 = SeededRandom.fromSeed F seed) :
    MapGenerator.generateWith r1 cfg seed opts tune packs =
      MapGenerator.generateWith r2 cfg seed opts tune packs := by
  subst h1
  subst h2
  rfl

/-- Witness for C1 at a concrete configuration and seed. -/
theorem generate_deterministic_witness :
    MapGenerator.generateWith (SeededRandom.fromSeed (fun _ _ => 0) 0) {} 0 {} {} none =
      MapGenerator.generateWith (SeededRandom.fromSeed (fun _ _ => 0) 0) {} 0 {} {} none :=
  generate_deterministic (fun _ _ => 0) {} {} none 0 {} _ _ rfl rfl

unseal Rat.add Rat.sub Rat.mul Rat.inv Rat.ofScientific in
/-- C2: the pack director violates its own budget invariant.  On the three
input descriptors `spawnsC2`, with the pack configuration `packsC2` (pack
chance in [0,1]) and the rng draws `rngC2`, the first shuffled anchor is
skipped by the pack-formation roll; the pack formed at the second anchor has
size 3 but can only consume one further unconsumed descriptor, yet still
emits 3 members, and the skipped descriptor is also re-emitted as a single:
4 output descriptors from 3 inputs. -/
theorem pack_budget_violated :
    (MapGenerator.applyPackDirector (some packsC2) rngC2 spawnsC2 ["grunt"]
        ⟨0, 0⟩ ⟨600, 600⟩).1.length = 4 ∧
      spawnsC2.length = 3 := by
  decide

unseal Rat.add Rat.sub Rat.mul Rat.inv Rat.ofScientific in
/-- C3: through the pack director's budget inflation, a full
`MapGenerator.generate` run can exceed the configured
`maxEnemySpawnsPerZone` hard cap: `zoneC3` carries 4 enemy spawn descriptors
against a configured cap of 3. -/
theorem enemy_cap_violated :
    zoneC3.enemySpawns.length = 4 ∧ tuneC3.maxEnemySpawnsPerZone = some 3 := by
  decide

unseal Rat.add Rat.sub Rat.mul Rat.inv Rat.ofScientific in
/-- C4 counterexample: in the generated zone `zoneC4` (whose tuning leaves
the spacing minimums at their defaults 300/200/150), the final `enemySpawns`
list consists of three pack-director members all emitted at the same point
(1030, 750), so two distinct descriptors lie at distance 0 < 150 from each
other — the claimed spacing does not hold for pack-emitted descriptors. -/
theorem spacing_violated_by_packs :
    (zoneC4.enemySpawns.map fun s => (s.x, s.y)) =
        [(1030, 750), (1030, 750), (1030, 750)] ∧
      tuneC4.enemySpawnMinDistBetween = none ∧
      hypotLt (1030 - 1030) (750 - 750) 150 = true := by
  decide

unseal Rat.add Rat.sub Rat.mul Rat.inv Rat.ofScientific in
/-- C5 counterexample: with the draws `rngC5` in a 1500×1500 zone the spawn
point is placed on the left edge at (100, 1387); the exit-point rule then
tests coordinates, sees `spawn.y > h/2`, and places the exit on the top edge
at (100, 100) — not on the right edge (x = 1400) that "geometrically
opposite" would require for a left-edge spawn. -/
theorem exit_not_opposite :
    c5spawn.1 = ⟨100, 1387⟩ ∧ c5exit.1 = ⟨100, 100⟩ ∧ c5exit.1.x ≠ 1500 - 100 := by
  decide

/-- C6 counterexample: the transition block is not extensionally the spec's
three-rule system.  In state `return` with the player inside aggro range
(distP = 10 ≤ 340) but the entity away from home (distH = 100 > 40), the code
re-aggros while the three spec rules leave the state at `return`. -/
theorem ai_transition_not_spec :
    Enemies.aiTransition .ret 10 100 340 561 748 40 ≠
      Enemies.specAiTransition .ret 10 100 340 561 748 40 := by
  decide

/-- C6 amended: the transition block implements the three rules with an
aggro-entry rule that takes priority from every state: (entering) any state
becomes `aggro` when distP ≤ aggroRange; otherwise `aggro` becomes `return`
when distP > disengageRange (using aggroRange ≤ disengageRange) or when
distH > leashRange; otherwise `return` becomes `patrol`, zeroing the
velocity, when distH ≤ returnThreshold — so the claim's two scenario
consequences hold whenever the player stays outside aggro range. -/
theorem ai_transition_amended (s : AiState) (distP distH ag dis lsh thr : ℚ)
    (had : ag ≤ dis) :
    (distP ≤ ag → Enemies.aiTransition s distP distH ag dis lsh thr = (.aggro, false)) ∧
    (s = .aggro → dis < distP →
      Enemies.aiTransition s distP distH ag dis lsh thr = (.ret, false)) ∧
    (s = .aggro → ¬distP ≤ ag → lsh < distH →
      Enemies.aiTransition s distP distH ag dis lsh thr = (.ret, false)) ∧
    (s = .ret → distH ≤ thr → ¬distP ≤ ag →
      Enemies.aiTransition s distP distH ag dis lsh thr = (.patrol, true)) := by
  unfold Enemies.aiTransition
  refine ⟨?_, ?_, ?_, ?_⟩
  · intro h
    rw [if_pos h]
  · intro hs h2
    subst hs
    have h1 : ¬distP ≤ ag := by linarith
    rw [if_neg h1, if_pos ⟨rfl, Or.inl h2⟩]
  · intro hs h1 h3
    subst hs
    rw [if_neg h1, if_pos ⟨rfl, Or.inr h3⟩]
  · intro hs h2 h1
    subst hs
    rw [if_neg h1, if_neg (fun hc => AiState.noConfusion hc.1),
      if_pos ⟨rfl, h2⟩]

/-- Witness for the amended C6 at the source's derived ranges
(aggro 340, disengage 561 = 340·1.65, leash 748, threshold 40). -/
theorem ai_transition_amended_witness :
    (600 ≤ (340 : ℚ) → Enemies.aiTransition .aggro 600 30 340 561 748 40 = (.aggro, false)) ∧
    (AiState.aggro = .aggro → (561 : ℚ) < 600 →
      Enemies.aiTransition .aggro 600 30 340 561 748 40 = (.ret, false)) ∧
    (AiState.aggro = .aggro → ¬(600 : ℚ) ≤ 340 → (748 : ℚ) < 30 →
      Enemies.aiTransition .aggro 600 30 340 561 748 40 = (.ret, false)) ∧
    (AiState.aggro = .ret → (30 : ℚ) ≤ 40 → ¬(600 : ℚ) ≤ 340 →
      Enemies.aiTransition .aggro 600 30 340 561 748 40 = (.patrol, true)) :=
  ai_transition_amended .aggro 600 30 340 561 748 40 (by norm_num)

/-- Each iteration of a `runN` loop pushes exactly one element. -/
theorem runN_length {α : Type} (f : SeededRandom → α × SeededRandom) :
    ∀ (n : Nat) (r : SeededRandom), (runN n f r).1.length = n
  | 0, _ => rfl
  | n + 1, r => by
    simp [runN, runN_length f n]

/-- A JS `for` loop with a bound of at least 1 runs at least once. -/
theorem jsIter_ge_one {c : ℚ} (h : 1 ≤ c) : 1 ≤ jsIter c := by
  unfold jsIter
  have h2 : (0 : ℤ) < ⌈c⌉ := Int.ceil_pos.2 (by linarith)
  omega

/-- `generateEliteSpawns` emits at least one descriptor for every input: its
count is floored at 1 by `Math.max(1, Math.min(countRaw, maxElites))`. -/
theorem generateEliteSpawns_ge_one (tune : Tune) (rng : SeededRandom)
    (pool : List String) (density w h : ℚ) :
    1 ≤ (MapGenerator.generateEliteSpawns tune rng pool density w h).1.length := by
  dsimp only [MapGenerator.generateEliteSpawns]
  rw [runN_length]
  exact jsIter_ge_one (le_max_left 1 _)

/-- C10: every zone produced by the regular `MapGenerator.generate` path
carries at least one elite spawn descriptor, for every act configuration,
seed, depth, modifier set, tuning, and pack configuration — the count is
floored at 1 even when the density-implied count is zero, so a regular zone
with zero elite spawns is impossible. -/
theorem elite_floor (F : ℚ → Nat → ℚ) (cfg : ActConfig) (seed : ℚ)
    (opts : GenOptions) (tune : Tune) (packs : Option PacksData) :
    1 ≤ (MapGenerator.generate F cfg seed opts tune packs).eliteSpawns.length := by
  dsimp only [MapGenerator.generate, MapGenerator.generateWith]
  exact generateEliteSpawns_ge_one _ _ _ _ _ _

/-- The trimmed collection of `capArray`: unchanged when within cap, else the
oldest `length - max` entries are dropped. -/
theorem capArray_fst {α : Type} (sf : Bool) (arr : List α) (mx : ℤ) (lbl : String) :
    (Invariants.capArray sf arr mx lbl).1 =
      if (arr.length : ℤ) ≤ mx then arr
      else arr.drop ((arr.length : ℤ) - mx).toNat := by
  unfold Invariants.capArray
  by_cases h : (arr.length : ℤ) ≤ mx
  · rw [if_pos h, if_pos h]
  · rw [if_neg h, if_neg h]

/-- After `capArray`, the collection length is within the (nonnegative) cap. -/
theorem capArray_length_le {α : Type} (sf : Bool) (arr : List α) (mx : ℤ)
    (lbl : String) (h : 0 ≤ mx) :
    ((Invariants.capArray sf arr mx lbl).1.length : ℤ) ≤ mx := by
  rw [capArray_fst]
  by_cases h1 : (arr.length : ℤ) ≤ mx
  · rw [if_pos h1]
    exact h1
  · rw [if_neg h1, List.length_drop]
    omega

/-- With the soft fuse on, `capArray` never produces an error event. -/
theorem capArray_events_warn {α : Type} (arr : List α) (mx : ℤ) (lbl : String) :
    ∀ ev, (Invariants.capArray true arr mx lbl).2 = some ev → ev.isWarn = true := by
  unfold Invariants.capArray
  by_cases h1 : (arr.length : ℤ) ≤ mx
  · rw [if_pos h1]
    intro ev h
    simp at h
  · rw [if_neg h1]
    intro ev h
    simp only [Option.some.injEq] at h
    rw [← h]
    rfl

/-- C8: after `postFrame` (with the guard enabled and the soft fuse on, the
defaults), every tracked collection's length is at most its configured cap;
an over-cap collection is trimmed to exactly its newest `cap` entries in
order (the oldest `length - cap` are dropped); and the trim emits only
warnings, never an error. -/
theorem soft_fuse_caps {α : Type} (caps : Invariants.Caps) (st : Invariants.SimState α)
    (h1 : 0 ≤ caps.bullets) (h2 : 0 ≤ caps.enemyBullets) (h3 : 0 ≤ caps.enemies)
    (h4 : 0 ≤ caps.pickups) (h5 : 0 ≤ caps.particles) :
    (((Invariants.postFrame true true caps st).1.bullets.length : ℤ) ≤ caps.bullets ∧
      ((Invariants.postFrame true true caps st).1.enemyBullets.length : ℤ) ≤ caps.enemyBullets ∧
      ((Invariants.postFrame true true caps st).1.enemies.length : ℤ) ≤ caps.enemies ∧
      ((Invariants.postFrame true true caps st).1.pickups.length : ℤ) ≤ caps.pickups ∧
      ((Invariants.postFrame true true caps st).1.particles.length : ℤ) ≤ caps.particles) ∧
    ((Invariants.postFrame true true caps st).1.bullets =
      if (st.bullets.length : ℤ) ≤ caps.bullets then st.bullets
      else st.bullets.drop ((st.bullets.length : ℤ) - caps.bullets).toNat) ∧
    ((Invariants.postFrame true true caps st).1.enemyBullets =
      if (st.enemyBullets.length : ℤ) ≤ caps.enemyBullets then st.enemyBullets
      else st.enemyBullets.drop ((st.enemyBullets.length : ℤ) - caps.enemyBullets).toNat) ∧
    ((Invariants.postFrame true true caps st).1.enemies =
      if (st.enemies.length : ℤ) ≤ caps.enemies then st.enemies
      else st.enemies.drop ((st.enemies.length : ℤ) - caps.enemies).toNat) ∧
    ((Invariants.postFrame true true caps st).1.pickups =
      if (st.pickups.length : ℤ) ≤ caps.pickups then st.pickups
      else st.pickups.drop ((st.pickups.length : ℤ) - caps.pickups).toNat) ∧
    ((Invariants.postFrame true true caps st).1.particles =
      if (st.particles.length : ℤ) ≤ caps.particles then st.particles
      else st.particles.drop ((st.particles.length : ℤ) - caps.particles).toNat) ∧
    (∀ ev ∈ (Invariants.postFrame true true caps st).2, ev.isWarn = true) := by
  dsimp only [Invariants.postFrame]
  refine ⟨⟨?_, ?_, ?_, ?_, ?_⟩, ?_, ?_, ?_, ?_, ?_, ?_⟩
  · exact capArray_length_le _ _ _ _ h1
  · exact capArray_length_le _ _ _ _ h2
  · exact capArray_length_le _ _ _ _ h3
  · exact capArray_length_le _ _ _ _ h4
  · exact capArray_length_le _ _ _ _ h5
  · exact capArray_fst _ _ _ _
  · exact capArray_fst _ _ _ _
  · exact capArray_fst _ _ _ _
  · exact capArray_fst _ _ _ _
  · exact capArray_fst _ _ _ _
  · intro ev hev
    have hev2 : ev ∈
        [(Invariants.capArray true st.bullets caps.bullets "State.bullets").2,
          (Invariants.capArray true st.enemyBullets caps.enemyBullets "State.enemyBullets").2,
          (Invariants.capArray true st.enemies caps.enemies "State.enemies").2,
          (Invariants.capArray true st.pickups caps.pickups "State.pickups").2,
          (Invariants.capArray true st.particles caps.particles "State.particles").2].filterMap
          id := hev
    simp only [List.mem_filterMap, id_eq] at hev2
    obtain ⟨o, ho, rfl⟩ := hev2
    simp only [List.mem_cons, List.mem_singleton] at ho
    rcases ho with h | h | h | h | h | h
    · exact capArray_events_warn _ _ _ ev h.symm
    · exact capArray_events_warn _ _ _ ev h.symm
    · exact capArray_events_warn _ _ _ ev h.symm
    · exact capArray_events_warn _ _ _ ev h.symm
    · exact capArray_events_warn _ _ _ ev h.symm
    · cases h

/-- Witness for C8: five entries pushed against a cap of 2 leave exactly the
newest two entries (Scenario D at small scale). -/
theorem soft_fuse_caps_witness :
    (0 : ℤ) ≤ ((⟨2, 2, 2, 2, 2⟩ : Invariants.Caps).bullets) ∧
      (Invariants.postFrame true true ⟨2, 2, 2, 2, 2⟩
          (⟨[10, 11, 12, 13, 14], [], [], [], []⟩ : Invariants.SimState ℕ)).1.bullets =
        (if (([10, 11, 12, 13, 14] : List ℕ).length : ℤ) ≤
            (⟨2, 2, 2, 2, 2⟩ : Invariants.Caps).bullets
          then ([10, 11, 12, 13, 14] : List ℕ)
          else ([10, 11, 12, 13, 14] : List ℕ).drop
            ((([10, 11, 12, 13, 14] : List ℕ).length : ℤ) -
              (⟨2, 2, 2, 2, 2⟩ : Invariants.Caps).bullets).toNat) :=
  ⟨by decide,
    (soft_fuse_caps ⟨2, 2, 2, 2, 2⟩ ⟨[10, 11, 12, 13, 14], [], [], [], []⟩
        (by decide) (by decide) (by decide) (by decide) (by decide)).2.1⟩

/-- C7: the zone-lifecycle despawn check never removes a live aggroed enemy.
When an active, unkilled descriptor has left the despawn window and its
entity is found: (1) the descriptor is deactivated (despawn) only when the
entity — after any forced transition — is within its home threshold of the
spawn point; (2) if the entity was aggroed, every surviving copy of it is in
the `return` state (the forced transition); (3) if the entity was aggroed and
away from home, no despawn happens and the entity survives in `return`. -/
theorem despawn_never_removes_aggro (spawn : ActiveSpawn) (enemies : List WEnemy)
    (player : Pt) (camX camY screenW screenH despawnMargin despawnRadius : ℚ)
    (enemy : WEnemy)
    (hk : spawn.killed = false) (ha : spawn.active = true)
    (hwin : (!World.isInView spawn.x spawn.y camX camY screenW screenH despawnMargin ||
        !hypotLe (player.x - spawn.x) (player.y - spawn.y) despawnRadius) = true)
    (hfind : enemies.find? (fun e => spawn.enemyId == some e.id) = some enemy) :
    ((World.despawnCheck spawn enemies player camX camY screenW screenH despawnMargin
          despawnRadius).2.active = false →
      hypotLe (enemy.x - spawn.x) (enemy.y - spawn.y)
        (jsOrQ enemy.returnThreshold 60) = true) ∧
    (enemy.aiState = some AiState.aggro →
      ∀ e ∈ (World.despawnCheck spawn enemies player camX camY screenW screenH
          despawnMargin despawnRadius).1, e.id = enemy.id → e.aiState = some AiState.ret) ∧
    (enemy.aiState = some AiState.aggro →
      hypotLe (enemy.x - spawn.x) (enemy.y - spawn.y)
          (jsOrQ enemy.returnThreshold 60) = false →
      (World.despawnCheck spawn enemies player camX camY screenW screenH despawnMargin
          despawnRadius).2.active = true ∧
        ({ enemy with aiState := some AiState.ret } : WEnemy) ∈
          (World.despawnCheck spawn enemies player camX camY screenW screenH
            despawnMargin despawnRadius).1) := by
  have hdc : World.despawnCheck spawn enemies player camX camY screenW screenH
      despawnMargin despawnRadius =
      (let forced := if enemy.aiState == some AiState.aggro then
          { enemy with aiState := some AiState.ret } else enemy
       let enemies1 := enemies.map (fun e => if e.id == enemy.id then forced else e)
       if forced.aiState != some AiState.aggro &&
           hypotLe (enemy.x - spawn.x) (enemy.y - spawn.y)
             (jsOrQ enemy.returnThreshold 60) then
         World.despawnEnemy spawn enemies1
       else (enemies1, spawn)) := by
    unfold World.despawnCheck
    rw [hk, ha]
    dsimp only
    rw [hwin, hfind]
    dsimp only
    rfl
  rw [hdc]
  dsimp only
  by_cases hag : enemy.aiState = some AiState.aggro
  · have hbeq : (enemy.aiState == some AiState.aggro) = true := beq_iff_eq.2 hag
    have hf : (if (enemy.aiState == some AiState.aggro) = true then
        ({ enemy with aiState := some AiState.ret } : WEnemy) else enemy) =
        { enemy with aiState := some AiState.ret } := if_pos hbeq
    rw [hf]
    have hmem1 : ∀ e ∈ enemies.map (fun e => if (e.id == enemy.id) = true then
        ({ enemy with aiState := some AiState.ret } : WEnemy) else e),
        e.id = enemy.id → e = { enemy with aiState := some AiState.ret } := by
      intro e he hid
      obtain ⟨a, _, rfl⟩ := List.mem_map.1 he
      by_cases h : (a.id == enemy.id) = true
      · rw [if_pos h]
      · rw [if_neg h] at hid ⊢
        exact absurd (beq_iff_eq.2 hid) h
    have hforced : (({ enemy with aiState := some AiState.ret } : WEnemy).aiState !=
        some AiState.aggro) = true := rfl
    rw [hforced]
    simp only [Bool.true_and]
    by_cases hle : hypotLe (enemy.x - spawn.x) (enemy.y - spawn.y)
        (jsOrQ enemy.returnThreshold 60) = true
    · rw [if_pos hle]
      dsimp only [World.despawnEnemy]
      refine ⟨fun _ => hle, fun _ e he hid => ?_,
        fun _ hf2 => absurd hle (by rw [hf2]; exact fun h => Bool.noConfusion h)⟩
      have he1 := (List.eraseP_sublist _).subset he
      rw [hmem1 e he1 hid]
    · rw [if_neg hle]
      dsimp only
      refine ⟨fun h => absurd (ha.symm.trans h) (by decide), fun _ e he hid => ?_,
        fun _ _ => ⟨ha, ?_⟩⟩
      · rw [hmem1 e he hid]
      · refine List.mem_map.2 ⟨enemy, List.mem_of_find?_eq_some hfind, ?_⟩
        rw [if_pos (beq_iff_eq.2 rfl)]
  · have hbeq : (enemy.aiState == some AiState.aggro) = false := by
      cases h2 : enemy.aiState == some AiState.aggro
      · rfl
      · exact absurd (beq_iff_eq.1 h2) hag
    have hf : (if (enemy.aiState == some AiState.aggro) = true then
        ({ enemy with aiState := some AiState.ret } : WEnemy) else enemy) = enemy := by
      rw [hbeq]
      rfl
    rw [hf]
    have hne : (enemy.aiState != some AiState.aggro) = true := by
      rw [bne, hbeq]
      rfl
    rw [hne]
    simp only [Bool.true_and]
    refine ⟨?_, fun h => absurd h hag, fun h => absurd h hag⟩
    by_cases hle : hypotLe (enemy.x - spawn.x) (enemy.y - spawn.y)
        (jsOrQ enemy.returnThreshold 60) = true
    · rw [if_pos hle]
      exact fun _ => hle
    · rw [if_neg hle]
      exact fun h => absurd (ha.symm.trans h) (by decide)


unseal Rat.add Rat.sub Rat.mul Rat.inv Rat.ofScientific in
/-- Witness for C7: an aggroed enemy at (4000,4000), away from its far
off-view spawn descriptor at (5000,5000), is not despawned and survives in
the `return` state. -/
theorem despawn_never_removes_aggro_witness :
    (World.despawnCheck ⟨5000, 5000, true, false, some "e1"⟩
        [⟨"e1", 4000, 4000, some AiState.aggro, some 60⟩] ⟨0, 0⟩ 0 0 800 600 1800
        1200).2.active = true ∧
      ({ id := "e1", x := 4000, y := 4000, aiState := some AiState.ret,
         returnThreshold := some 60 } : WEnemy) ∈
        (World.despawnCheck ⟨5000, 5000, true, false, some "e1"⟩
          [⟨"e1", 4000, 4000, some AiState.aggro, some 60⟩] ⟨0, 0⟩ 0 0 800 600 1800
          1200).1 :=
  (despawn_never_removes_aggro ⟨5000, 5000, true, false, some "e1"⟩
      [⟨"e1", 4000, 4000, some AiState.aggro, some 60⟩] ⟨0, 0⟩ 0 0 800 600 1800 1200
      ⟨"e1", 4000, 4000, some AiState.aggro, some 60⟩ rfl rfl (by decide)
      (by decide)).2.2 rfl (by decide)

/-- Bounds of a well-formed `range(lo,hi)` draw. -/
theorem range_bounds (r : SeededRandom) (lo hi : ℚ)
    (h0 : 0 ≤ r.floats r.k) (h1 : r.floats r.k < 1) (hlo : lo < hi) :
    lo ≤ (r.range lo hi).1 ∧ (r.range lo hi).1 < hi := by
  unfold SeededRandom.range SeededRandom.nextFloat
  dsimp only
  constructor
  · nlinarith
  · nlinarith

/-- One `pick` draw on the three-edge list, with the cast length reduced. -/
theorem pick3_pair (r : SeededRandom) :
    r.pick ["bottom", "left", "right"] =
      (jsIndex ["bottom", "left", "right"] ⌊r.floats r.k * 3⌋,
        { r with k := r.k + 1 }) := by
  unfold SeededRandom.pick SeededRandom.nextFloat
  dsimp only
  norm_num

/-- The exit-point rule by cases on the spawn coordinates. -/
theorem exitPoint_cases (rng : SeededRandom) (sp : Pt) (w h : ℚ) :
    (sp.y > h / 2 → (MapGenerator.generateExitPoint rng sp w h).1.y = 100) ∧
    (¬sp.y > h / 2 → sp.x < w / 2 →
      (MapGenerator.generateExitPoint rng sp w h).1.x = w - 100) ∧
    (¬sp.y > h / 2 → ¬sp.x < w / 2 →
      (MapGenerator.generateExitPoint rng sp w h).1.x = 100) := by
  unfold MapGenerator.generateExitPoint
  refine ⟨fun h1 => ?_, fun h1 h2 => ?_, fun h1 h2 => ?_⟩
  · rw [if_pos h1]
  · rw [if_neg h1, if_pos h2]
  · rw [if_neg h1, if_neg h2]

set_option maxHeartbeats 2000000 in
/-- The spawn point always lies on the bottom, left or right edge (never the
top edge), at an offset within the 100px margins. -/
theorem spawnPoint_cases (rng : SeededRandom) (w h : ℚ) (hw : 200 < w)
    (hh : 200 < h) (hwf : rng.wf) :
    ((MapGenerator.generateSpawnPoint rng w h).1.y = h - 100 ∧ 100 ≤ (MapGenerator.generateSpawnPoint rng w h).1.x ∧ (MapGenerator.generateSpawnPoint rng w h).1.x < w - 100) ∨
    ((MapGenerator.generateSpawnPoint rng w h).1.x = 100 ∧ 100 ≤ (MapGenerator.generateSpawnPoint rng w h).1.y ∧ (MapGenerator.generateSpawnPoint rng w h).1.y < h - 100) ∨
    ((MapGenerator.generateSpawnPoint rng w h).1.x = w - 100 ∧ 100 ≤ (MapGenerator.generateSpawnPoint rng w h).1.y ∧ (MapGenerator.generateSpawnPoint rng w h).1.y < h - 100) := by
  obtain ⟨hf0, hf1⟩ := hwf rng.k
  obtain ⟨hg0, hg1⟩ := hwf (rng.k + 1)
  have hi : ⌊rng.floats rng.k * 3⌋ = 0 ∨ ⌊rng.floats rng.k * 3⌋ = 1 ∨
      ⌊rng.floats rng.k * 3⌋ = 2 := by
    have hl : (0 : ℤ) ≤ ⌊rng.floats rng.k * 3⌋ := Int.floor_nonneg.2 (by nlinarith)
    have hu : ⌊rng.floats rng.k * 3⌋ < 3 := Int.floor_lt.2 (by push_cast; nlinarith)
    omega
  have hwlo : (100 : ℚ) < w - 100 := by linarith
  have hhlo : (100 : ℚ) < h - 100 := by linarith
  rcases hi with hc | hc | hc
  · have hp : rng.pick ["bottom", "left", "right"] =
        (some "bottom", { rng with k := rng.k + 1 }) := by
      rw [pick3_pair, hc]
      rfl
    refine Or.inl ?_
    unfold MapGenerator.generateSpawnPoint
    rw [hp]
    dsimp only
    exact ⟨rfl, (range_bounds _ 100 (w - 100) hg0 hg1 hwlo).1,
      (range_bounds _ 100 (w - 100) hg0 hg1 hwlo).2⟩
  · have hp : rng.pick ["bottom", "left", "right"] =
        (some "left", { rng with k := rng.k + 1 }) := by
      rw [pick3_pair, hc]
      rfl
    refine Or.inr (Or.inl ?_)
    unfold MapGenerator.generateSpawnPoint
    rw [hp]
    dsimp only
    exact ⟨rfl, (range_bounds _ 100 (h - 100) hg0 hg1 hhlo).1,
      (range_bounds _ 100 (h - 100) hg0 hg1 hhlo).2⟩
  · have hp : rng.pick ["bottom", "left", "right"] =
        (some "right", { rng with k := rng.k + 1 }) := by
      rw [pick3_pair, hc]
      rfl
    refine Or.inr (Or.inr ?_)
    unfold MapGenerator.generateSpawnPoint
    rw [hp]
    dsimp only
    exact ⟨rfl, (range_bounds _ 100 (h - 100) hg0 hg1 hhlo).1,
      (range_bounds _ 100 (h - 100) hg0 hg1 hhlo).2⟩

/-- C5 amended: the spawn point is placed on one of the bottom/left/right
edges (never the top) at an offset within the 100px margin, and the exit is
placed by coordinate tests: on the top edge when the spawn lies in the lower
half, else on the right edge when it lies in the left half, else on the left
edge.  For a bottom-edge spawn (h > 200) and for left/right-edge spawns in
the upper half this is the geometrically opposite edge; the counterexample
`exit_not_opposite` shows it is not for a left-edge spawn in the lower
half. -/
theorem spawn_exit_amended (rng : SeededRandom) (w h : ℚ) (hw : 200 < w)
    (hh : 200 < h) (hwf : rng.wf) :
    (((MapGenerator.generateSpawnPoint rng w h).1.y = h - 100 ∧ 100 ≤ (MapGenerator.generateSpawnPoint rng w h).1.x ∧ (MapGenerator.generateSpawnPoint rng w h).1.x < w - 100) ∨
      ((MapGenerator.generateSpawnPoint rng w h).1.x = 100 ∧ 100 ≤ (MapGenerator.generateSpawnPoint rng w h).1.y ∧ (MapGenerator.generateSpawnPoint rng w h).1.y < h - 100) ∨
      ((MapGenerator.generateSpawnPoint rng w h).1.x = w - 100 ∧ 100 ≤ (MapGenerator.generateSpawnPoint rng w h).1.y ∧ (MapGenerator.generateSpawnPoint rng w h).1.y < h - 100)) ∧
    ((MapGenerator.generateSpawnPoint rng w h).1.y > h / 2 → (MapGenerator.generateExitPoint (MapGenerator.generateSpawnPoint rng w h).2 (MapGenerator.generateSpawnPoint rng w h).1 w h).1.y = 100) ∧
    ((MapGenerator.generateSpawnPoint rng w h).1.y ≤ h / 2 → (MapGenerator.generateSpawnPoint rng w h).1.x < w / 2 → (MapGenerator.generateExitPoint (MapGenerator.generateSpawnPoint rng w h).2 (MapGenerator.generateSpawnPoint rng w h).1 w h).1.x = w - 100) ∧
    ((MapGenerator.generateSpawnPoint rng w h).1.y ≤ h / 2 → ¬(MapGenerator.generateSpawnPoint rng w h).1.x < w / 2 → (MapGenerator.generateExitPoint (MapGenerator.generateSpawnPoint rng w h).2 (MapGenerator.generateSpawnPoint rng w h).1 w h).1.x = 100) := by
  refine ⟨spawnPoint_cases rng w h hw hh hwf, fun h1 => ?_, fun h1 h2 => ?_,
    fun h1 h2 => ?_⟩
  · exact (exitPoint_cases _ _ w h).1 h1
  · exact (exitPoint_cases _ _ w h).2.1 (not_lt.2 h1) h2
  · exact (exitPoint_cases _ _ w h).2.2 (not_lt.2 h1) h2


/-- Witness for the amended C5 in a 1500x1500 zone with an all-zero float
stream. -/
theorem spawn_exit_amended_witness :
    (((MapGenerator.generateSpawnPoint ⟨fun _ => 0, 0⟩ 1500 1500).1.y = 1500 - 100 ∧ 100 ≤ (MapGenerator.generateSpawnPoint ⟨fun _ => 0, 0⟩ 1500 1500).1.x ∧ (MapGenerator.generateSpawnPoint ⟨fun _ => 0, 0⟩ 1500 1500).1.x < 1500 - 100) ∨
      ((MapGenerator.generateSpawnPoint ⟨fun _ => 0, 0⟩ 1500 1500).1.x = 100 ∧ 100 ≤ (MapGenerator.generateSpawnPoint ⟨fun _ => 0, 0⟩ 1500 1500).1.y ∧ (MapGenerator.generateSpawnPoint ⟨fun _ => 0, 0⟩ 1500 1500).1.y < 1500 - 100) ∨
      ((MapGenerator.generateSpawnPoint ⟨fun _ => 0, 0⟩ 1500 1500).1.x = 1500 - 100 ∧ 100 ≤ (MapGenerator.generateSpawnPoint ⟨fun _ => 0, 0⟩ 1500 1500).1.y ∧ (MapGenerator.generateSpawnPoint ⟨fun _ => 0, 0⟩ 1500 1500).1.y < 1500 - 100)) ∧
    ((MapGenerator.generateSpawnPoint ⟨fun _ => 0, 0⟩ 1500 1500).1.y > 1500 / 2 → (MapGenerator.generateExitPoint (MapGenerator.generateSpawnPoint ⟨fun _ => 0, 0⟩ 1500 1500).2 (MapGenerator.generateSpawnPoint ⟨fun _ => 0, 0⟩ 1500 1500).1 1500 1500).1.y = 100) ∧
    ((MapGenerator.generateSpawnPoint ⟨fun _ => 0, 0⟩ 1500 1500).1.y ≤ 1500 / 2 → (MapGenerator.generateSpawnPoint ⟨fun _ => 0, 0⟩ 1500 1500).1.x < 1500 / 2 → (MapGenerator.generateExitPoint (MapGenerator.generateSpawnPoint ⟨fun _ => 0, 0⟩ 1500 1500).2 (MapGenerator.generateSpawnPoint ⟨fun _ => 0, 0⟩ 1500 1500).1 1500 1500).1.x = 1500 - 100) ∧
    ((MapGenerator.generateSpawnPoint ⟨fun _ => 0, 0⟩ 1500 1500).1.y ≤ 1500 / 2 → ¬(MapGenerator.generateSpawnPoint ⟨fun _ => 0, 0⟩ 1500 1500).1.x < 1500 / 2 → (MapGenerator.generateExitPoint (MapGenerator.generateSpawnPoint ⟨fun _ => 0, 0⟩ 1500 1500).2 (MapGenerator.generateSpawnPoint ⟨fun _ => 0, 0⟩ 1500 1500).1 1500 1500).1.x = 100) :=
  spawn_exit_amended ⟨fun _ => 0, 0⟩ 1500 1500 (by norm_num) (by norm_num)
    (fun _ => ⟨le_refl 0, by norm_num⟩)


/-- A failed `hypot < c` test with nonnegative `c` means the squared
distance is at least `c^2`. -/
theorem le_of_not_hypotLt {dx dy c : ℚ} (hc : 0 ≤ c) (h : hypotLt dx dy c = false) :
    c ^ 2 ≤ dx ^ 2 + dy ^ 2 := by
  unfold hypotLt at h
  rcases Bool.and_eq_false_iff.1 h with h1 | h1
  · have h2 : ¬(0 < c) := of_decide_eq_false h1
    have hc0 : c = 0 := le_antisymm (not_lt.1 h2) hc
    rw [hc0]
    positivity
  · have h2 := not_lt.1 (of_decide_eq_false h1)
    linarith

/-- The rejection-sampling loop preserves the spacing invariant: every
accepted point passed the three distance tests against the spawn point, the
exit point and all previously accepted points. -/
theorem enemySpawnLoop_spacing (pool : List String) (w h : ℚ) (spawn exit : Pt)
    (minS minE minB count : ℚ) (hs : 0 ≤ minS) (he : 0 ≤ minE) (hb : 0 ≤ minB) :
    ∀ (fuel : Nat) (acc : List SpawnDesc) (r : SeededRandom),
      SpacingInv spawn exit minS minE minB acc →
      SpacingInv spawn exit minS minE minB
        (MapGenerator.enemySpawnLoop pool w h spawn exit minS minE minB count
          fuel acc r).1 := by
  intro fuel
  induction fuel with
  | zero => exact fun acc r hinv => hinv
  | succ n ih =>
    intro acc r hinv
    rw [MapGenerator.enemySpawnLoop]
    by_cases hlen : (acc.length : ℚ) < count
    · rw [if_pos hlen]
      dsimp only
      split
      · exact ih _ _ hinv
      · split
        · exact ih _ _ hinv
        · split
          · exact ih _ _ hinv
          next h1 h2 h3 =>
            apply ih
            have h1f := Bool.eq_false_iff.2 h1
            have h2f := Bool.eq_false_iff.2 h2
            have h3f : ∀ s ∈ acc,
                hypotLt ((r.range 100 (w - 100)).1 - s.x)
                  (((r.range 100 (w - 100)).2.range 100 (h - 100)).1 - s.y) minB = false :=
              fun s hsmem => Bool.eq_false_iff.2
                (fun hcon => h3 (List.any_eq_true.2 ⟨s, hsmem, hcon⟩))
            constructor
            · intro s hsmem
              rcases List.mem_append.1 hsmem with hmem | hmem
              · exact hinv.1 s hmem
              · rcases List.mem_singleton.1 hmem with rfl
                exact ⟨le_of_not_hypotLt hs h1f, le_of_not_hypotLt he h2f⟩
            · refine List.pairwise_append.2
                ⟨hinv.2, List.pairwise_singleton _ _, ?_⟩
              intro a ha b hbmem
              rcases List.mem_singleton.1 hbmem with rfl
              have := le_of_not_hypotLt hb (h3f a ha)
              dsimp only
              nlinarith [this]
    · rw [if_neg hlen]
      exact hinv

/-- C4 amended: every descriptor accepted by `generateEnemySpawns` (the
pre-pack list) is at least the configured minimum distance (when
nonnegative; defaults 300/200/150) from the zone spawn point, from the exit
point, and from every other accepted descriptor.  The pack director does not
preserve this (see `spacing_violated_by_packs`). -/
theorem enemy_spacing_amended (tune : Tune) (rng : SeededRandom)
    (pool : List String) (density w h : ℚ) (spawn exit : Pt)
    (hs : 0 ≤ tune.enemySpawnMinDistFromSpawn.getD 300)
    (he : 0 ≤ tune.enemySpawnMinDistFromExit.getD 200)
    (hb : 0 ≤ tune.enemySpawnMinDistBetween.getD 150) :
    SpacingInv spawn exit (tune.enemySpawnMinDistFromSpawn.getD 300)
      (tune.enemySpawnMinDistFromExit.getD 200)
      (tune.enemySpawnMinDistBetween.getD 150)
      (MapGenerator.generateEnemySpawns tune rng pool density w h spawn exit).1 := by
  dsimp only [MapGenerator.generateEnemySpawns]
  exact enemySpawnLoop_spacing pool w h spawn exit _ _ _ _ hs he hb _ [] rng
    ⟨fun s hsmem => absurd hsmem (List.not_mem_nil s), List.Pairwise.nil⟩

/-- Witness for the amended C4 at a concrete configuration. -/
theorem enemy_spacing_amended_witness :
    (0 : ℚ) ≤ (({} : Tune).enemySpawnMinDistFromSpawn.getD 300) ∧
      SpacingInv ⟨0, 0⟩ ⟨600, 600⟩
        (({} : Tune).enemySpawnMinDistFromSpawn.getD 300)
        (({} : Tune).enemySpawnMinDistFromExit.getD 200)
        (({} : Tune).enemySpawnMinDistBetween.getD 150)
        (MapGenerator.generateEnemySpawns {} ⟨fun _ => 0, 0⟩ ["grunt"] 1 600 600
          ⟨0, 0⟩ ⟨600, 600⟩).1 :=
  ⟨by decide,
    enemy_spacing_amended {} ⟨fun _ => 0, 0⟩ ["grunt"] 1 600 600 ⟨0, 0⟩ ⟨600, 600⟩
      (by decide) (by decide) (by decide)⟩


theorem set_get_eq {α : Type} : ∀ (l : List α) (i : Nat) (a : α),
    l.get? i = some a → l.set i a = l
  | [], _, _, h => nomatch h
  | x :: xs, 0, a, h => by
    simp only [List.get?] at h
    injection h with h
    rw [List.set, h]
  | x :: xs, n + 1, a, h => by
    simp only [List.get?] at h
    rw [List.set, set_get_eq xs n a h]

theorem map_set_keyOf (l : List HEnemy) (j : Nat) (tgt v : HEnemy)
    (hget : l.get? j = some tgt) (hk : keyOf v = keyOf tgt) :
    (l.set j v).map keyOf = l.map keyOf := by
  rw [List.map_set]
  apply set_get_eq
  rw [List.get?_map, hget]
  simp [hk]

theorem keyOf_parts {x y : HEnemy} (h : keyOf x = keyOf y) :
    x.id = y.id ∧ x.abilities = y.abilities ∧ x.repair = y.repair ∧
      x.maxHP = y.maxHP ∧ x.dead = y.dead := by
  simp only [keyOf, Prod.mk.injEq] at h
  exact h

theorem map_keyOf_ids {l m : List HEnemy} (h : l.map keyOf = m.map keyOf) :
    l.map (fun e => e.id) = m.map (fun e => e.id) := by
  have h2 := congrArg (List.map (fun p => p.1)) h
  simpa [List.map_map, Function.comp, keyOf] using h2

theorem get_of_map_keyOf {l m : List HEnemy} (h : l.map keyOf = m.map keyOf)
    {i : Nat} {x : HEnemy} (hx : l.get? i = some x) :
    ∃ y, m.get? i = some y ∧ keyOf y = keyOf x := by
  have h2 := congrArg (fun t => t.get? i) h
  simp only [List.get?_map, hx, Option.map_some] at h2
  obtain ⟨y, hy, hk⟩ := Option.map_eq_some'.1 h2.symm
  exact ⟨y, hy, hk⟩

theorem budGet_budSet_self (b : List (String × ℚ)) (k : String) (v : ℚ) :
    Enemies.budGet (Enemies.budSet b k v) k = v := by
  simp [Enemies.budGet, Enemies.budSet, List.lookup]

theorem budGet_budSet_ne (b : List (String × ℚ)) (k a : String) (v : ℚ)
    (h : a ≠ k) : Enemies.budGet (Enemies.budSet b k v) a = Enemies.budGet b a := by
  simp [Enemies.budGet, Enemies.budSet, List.lookup, beq_eq_false_iff_ne.2 h]

theorem nodup_ids_get_ne {l : List HEnemy}
    (hnd : (l.map (fun e => e.id)).Nodup) {i j : Nat} {x y : HEnemy}
    (hi : l.get? i = some x) (hj : l.get? j = some y) (hij : i ≠ j) :
    x.id ≠ y.id := by
  intro hxy
  apply hij
  have hlen : i < l.length := by
    obtain ⟨hl, -⟩ := List.get?_eq_some.1 hi
    exact hl
  have hlen2 : i < (l.map (fun e => e.id)).length := by
    rw [List.length_map]
    exact hlen
  apply List.get?_inj hlen2 hnd
  rw [List.get?_map, List.get?_map, hi, hj]
  simp [hxy]

theorem droneCandidateScore_some {H : ℚ → ℚ → ℚ} {e other : HEnemy} {sc : ℚ}
    (h : Enemies.droneCandidateScore H e other = some sc) :
    (other.id == e.id) = false ∧
      other.abilities.contains "repairTether" = false := by
  unfold Enemies.droneCandidateScore at h
  split at h
  · exact absurd h (by simp)
  · split at h
    · exact absurd h (by simp)
    · split at h
      · exact absurd h (by simp)
      next h1 h2 h3 =>
        exact ⟨Bool.eq_false_iff.2 h2, Bool.eq_false_iff.2 h3⟩

theorem droneSelect_spec (H : ℚ → ℚ → ℚ) (e : HEnemy) (l : List HEnemy)
    (s : Nat × HEnemy) (hsel : Enemies.droneSelect H e l = some s) :
    l.get? s.1 = some s.2 ∧ (s.2.id == e.id) = false := by
  have main : ∀ (L : List (Nat × HEnemy)) (acc : Option (Nat × HEnemy) × ℚ),
      (∀ t, acc.1 = some t → l.get? t.1 = some t.2 ∧ (t.2.id == e.id) = false) →
      (∀ p ∈ L, l.get? p.1 = some p.2) →
      ∀ t, (L.foldl (fun acc p =>
          match Enemies.droneCandidateScore H e p.2 with
          | none => acc
          | some s => if s > acc.2 then (some p, s) else acc) acc).1 = some t →
        l.get? t.1 = some t.2 ∧ (t.2.id == e.id) = false := by
    intro L
    induction L with
    | nil => exact fun acc hacc _ => hacc
    | cons p L ihL =>
      intro acc hacc hmem t hres
      rw [List.foldl_cons] at hres
      rcases hsc : Enemies.droneCandidateScore H e p.2 with _ | sc
      · rw [hsc] at hres
        exact ihL acc hacc (fun q hq => hmem q (List.mem_cons_of_mem p hq)) t hres
      · rw [hsc] at hres
        have hres2 : (List.foldl (fun acc p =>
            match Enemies.droneCandidateScore H e p.2 with
            | none => acc
            | some s => if s > acc.2 then (some p, s) else acc)
            (if sc > acc.2 then (some p, sc) else acc) L).1 = some t := hres
        by_cases hgt : sc > acc.2
        · rw [if_pos hgt] at hres2
          refine ihL (some p, sc) ?_ (fun q hq => hmem q (List.mem_cons_of_mem p hq)) t hres2
          intro t2 ht2
          injection ht2 with ht2
          subst ht2
          exact ⟨hmem p (List.mem_cons_self p L), (droneCandidateScore_some hsc).1⟩
        · rw [if_neg hgt] at hres2
          exact ihL acc hacc (fun q hq => hmem q (List.mem_cons_of_mem p hq)) t hres2
  apply main l.enum ((none : Option (Nat × HEnemy)), (-1000000000 : ℚ))
    (fun t ht => nomatch ht) ?_ s hsel
  intro p hp
  exact List.mem_enum_iff_get?.1 hp

theorem repairDrone_effect (H : ℚ → ℚ → ℚ) (dt : ℚ) (player : Pt) (e : HEnemy)
    (l : List HEnemy) (b : List (String × ℚ)) :
    keyOf (Enemies.updateRepairDroneAI H dt player e l b).1 = keyOf e ∧
    (Enemies.updateRepairDroneAI H dt player e l b).1.hp = e.hp ∧
    (((Enemies.updateRepairDroneAI H dt player e l b).2.1 = l ∧
        (Enemies.updateRepairDroneAI H dt player e l b).2.2 = b) ∨
      ∃ j tgt grant, l.get? j = some tgt ∧ (tgt.id == e.id) = false ∧
        0 < grant ∧
        grant ≤ tgt.maxHP * (e.repair.getD ⟨260, 0.03, 0.04⟩).capPctMaxHpPerSec * dt -
          Enemies.budGet b tgt.id ∧
        (Enemies.updateRepairDroneAI H dt player e l b).2.1 =
          l.set j { tgt with hp := min tgt.maxHP (tgt.hp + grant) } ∧
        (Enemies.updateRepairDroneAI H dt player e l b).2.2 =
          Enemies.budSet b tgt.id (Enemies.budGet b tgt.id + grant)) := by
  unfold Enemies.updateRepairDroneAI
  rcases hsel : Enemies.droneSelect H e l with _ | sel
  · exact ⟨rfl, rfl, Or.inl ⟨rfl, rfl⟩⟩
  · obtain ⟨hget, hbeq⟩ := droneSelect_spec H e l sel hsel
    dsimp only
    split
    next hcond =>
      split
      next hg =>
        refine ⟨rfl, rfl, Or.inr ⟨sel.1, sel.2,
          max 0 (min (sel.2.maxHP * (e.repair.getD ⟨260, 0.03, 0.04⟩).healPctMaxHpPerSec * dt)
            (sel.2.maxHP * (e.repair.getD ⟨260, 0.03, 0.04⟩).capPctMaxHpPerSec * dt -
              Enemies.budGet b sel.2.id)),
          hget, hbeq, hg, ?_, rfl, rfl⟩⟩
        rcases le_or_lt (min (sel.2.maxHP * (e.repair.getD ⟨260, 0.03, 0.04⟩).healPctMaxHpPerSec * dt)
            (sel.2.maxHP * (e.repair.getD ⟨260, 0.03, 0.04⟩).capPctMaxHpPerSec * dt -
              Enemies.budGet b sel.2.id)) 0 with hm | hm
        · exfalso
          rw [max_eq_left hm] at hg
          exact lt_irrefl 0 hg
        · rw [max_eq_right hm.le]
          exact min_le_right _ _
      next hg =>
        exact ⟨rfl, rfl, Or.inl ⟨rfl, rfl⟩⟩
    next hcond =>
      exact ⟨rfl, rfl, Or.inl ⟨rfl, rfl⟩⟩

theorem updGo_inv (H : ℚ → ℚ → ℚ) (explore : HEnemy → HEnemy) (dt : ℚ)
    (player : Pt) (zW zH : ℚ) (enemies0 : List HEnemy) (t : Nat) (ally : HEnemy)
    (c : ℚ)
    (hexp : ∀ x, keyOf (explore x) = keyOf x ∧ (explore x).hp = x.hp)
    (hnd : (enemies0.map (fun e => e.id)).Nodup)
    (hshared : ∀ e0 ∈ enemies0, e0.abilities.contains "repairTether" = true →
      (e0.repair.getD ⟨260, 0.03, 0.04⟩).capPctMaxHpPerSec = c) :
    ∀ (fuel i : Nat) (l : List HEnemy) (b : List (String × ℚ)),
      l.map keyOf = enemies0.map keyOf →
      (∃ a, l.get? t = some a ∧ a.id = ally.id ∧ a.maxHP = ally.maxHP ∧
        a.hp ≤ ally.hp + Enemies.budGet b ally.id ∧ a.hp ≤ ally.maxHP) →
      0 ≤ Enemies.budGet b ally.id →
      Enemies.budGet b ally.id ≤ ally.maxHP * c * dt →
      ((Enemies.updGo H explore dt player zW zH fuel i l b).1.map keyOf =
          enemies0.map keyOf ∧
        (∃ a, (Enemies.updGo H explore dt player zW zH fuel i l b).1.get? t = some a ∧
          a.id = ally.id ∧ a.maxHP = ally.maxHP ∧
          a.hp ≤ ally.hp +
            Enemies.budGet (Enemies.updGo H explore dt player zW zH fuel i l b).2 ally.id ∧
          a.hp ≤ ally.maxHP) ∧
        0 ≤ Enemies.budGet (Enemies.updGo H explore dt player zW zH fuel i l b).2 ally.id ∧
        Enemies.budGet (Enemies.updGo H explore dt player zW zH fuel i l b).2 ally.id ≤
          ally.maxHP * c * dt) := by
  intro fuel
  induction fuel with
  | zero => exact fun i l b hkey hex hb0 hbc => ⟨hkey, hex, hb0, hbc⟩
  | succ n ih =>
    intro i l b hkey hex hb0 hbc
    rw [Enemies.updGo]
    rcases hgi : l.get? i with _ | e
    · exact ⟨hkey, hex, hb0, hbc⟩
    · dsimp only
      rcases hd : e.dead with _ | _
      · rcases hcont : e.abilities.contains "repairTether" with _ | _
        · -- non-drone entity: processed by the exploration AI
          refine ih (i + 1) (l.set i (explore e)) b ?_ ?_ hb0 hbc
          · exact (map_set_keyOf l i e (explore e) hgi (hexp e).1).trans hkey
          · obtain ⟨a, hat, haid, hamax, hahp, hahp2⟩ := hex
            by_cases hit : i = t
            · subst hit
              rw [hgi] at hat
              injection hat with hat
              subst hat
              refine ⟨explore e, ?_, ?_, ?_, ?_, ?_⟩
              · apply List.get?_set_eq_of_lt
                obtain ⟨hl2, -⟩ := List.get?_eq_some.1 hgi
                exact hl2
              · rw [(keyOf_parts (hexp e).1).1, haid]
              · rw [(keyOf_parts (hexp e).1).2.2.2.1, hamax]
              · rw [(hexp e).2]
                exact hahp
              · rw [(hexp e).2]
                exact hahp2
            · exact ⟨a, by rw [List.get?_set_ne _ _ hit]; exact hat, haid, hamax, hahp,
                hahp2⟩
        · -- support drone: heal step, then integrate and clamp
          obtain ⟨hkeyE, hhpE, hcase⟩ := repairDrone_effect H dt player e l b
          have hkey2 : keyOf (Enemies.integrateClamp dt zW zH
              (Enemies.updateRepairDroneAI H dt player e l b).1) = keyOf e := hkeyE
          have hhp2 : (Enemies.integrateClamp dt zW zH
              (Enemies.updateRepairDroneAI H dt player e l b).1).hp = e.hp := hhpE
          rcases hcase with ⟨hl, hb⟩ | ⟨j, tgt, grant, hjget, hjbeq, hgpos, hgle, hl, hb⟩
          · rw [hl, hb]
            refine ih (i + 1) _ b ?_ ?_ hb0 hbc
            · exact (map_set_keyOf l i e _ hgi hkey2).trans hkey
            · obtain ⟨a, hat, haid, hamax, hahp, hahp2⟩ := hex
              by_cases hit : i = t
              · subst hit
                rw [hgi] at hat
                injection hat with hat
                subst hat
                refine ⟨Enemies.integrateClamp dt zW zH
                    (Enemies.updateRepairDroneAI H dt player e l b).1, ?_, ?_, ?_, ?_, ?_⟩
                · apply List.get?_set_eq_of_lt
                  obtain ⟨hl2, -⟩ := List.get?_eq_some.1 hgi
                  exact hl2
                · rw [(keyOf_parts hkey2).1]
                  exact haid
                · rw [(keyOf_parts hkey2).2.2.2.1]
                  exact hamax
                · rw [hhp2]
                  exact hahp
                · rw [hhp2]
                  exact hahp2
              · exact ⟨a, by rw [List.get?_set_ne _ _ hit]; exact hat, haid, hamax, hahp,
                  hahp2⟩
          · -- a heal was granted to target tgt at index j
            obtain ⟨a, hat, haid, hamax, hahp, hahp2⟩ := hex
            obtain ⟨e0, he0get, he0key⟩ := get_of_map_keyOf hkey hgi
            obtain ⟨-, he0ab, he0rep, -, -⟩ := keyOf_parts he0key
            have hcapc : (e.repair.getD ⟨260, 0.03, 0.04⟩).capPctMaxHpPerSec = c := by
              rw [← he0rep]
              exact hshared e0 (List.get?_mem he0get) (by rw [he0ab, hcont])
            have hlnd : (l.map (fun e => e.id)).Nodup := by
              rw [map_keyOf_ids hkey]
              exact hnd
            have htne : tgt.id ≠ e.id := beq_eq_false_iff_ne.1 hjbeq
            have hij : i ≠ j := by
              intro hij0
              rw [← hij0, hgi] at hjget
              injection hjget with hjget
              rw [hjget] at htne
              exact htne rfl
            have hget2 : (l.set j { tgt with
                hp := min tgt.maxHP (tgt.hp + grant) }).get? i = some e := by
              rw [List.get?_set_ne _ _ (fun h0 => hij h0.symm)]
              exact hgi
            have hmap2 : ((l.set j { tgt with
                hp := min tgt.maxHP (tgt.hp + grant) }).set i
                (Enemies.integrateClamp dt zW zH
                  (Enemies.updateRepairDroneAI H dt player e l b).1)).map keyOf =
                enemies0.map keyOf := by
              rw [map_set_keyOf _ i e _ hget2 hkey2,
                map_set_keyOf l j tgt { tgt with
                  hp := min tgt.maxHP (tgt.hp + grant) } hjget rfl]
              exact hkey
            rw [hl, hb]
            by_cases hjt : j = t
            · -- the healed target is the tracked ally
              subst hjt
              rw [hjget] at hat
              injection hat with hat
              subst hat
              refine ih (i + 1) _ _ ?_ ?_ ?_ ?_
              · exact hmap2
              · refine ⟨{ tgt with hp := min tgt.maxHP (tgt.hp + grant) }, ?_, haid,
                  hamax, ?_, ?_⟩
                · rw [List.get?_set_ne _ _ hij]
                  apply List.get?_set_eq_of_lt
                  obtain ⟨hl2, -⟩ := List.get?_eq_some.1 hjget
                  exact hl2
                · rw [← haid] at hahp ⊢
                  rw [budGet_budSet_self]
                  have h1 : min tgt.maxHP (tgt.hp + grant) ≤ tgt.hp + grant :=
                    min_le_right _ _
                  show min tgt.maxHP (tgt.hp + grant) ≤ _
                  linarith
                · show min tgt.maxHP (tgt.hp + grant) ≤ ally.maxHP
                  rw [← hamax]
                  exact min_le_left _ _
              · rw [← haid, budGet_budSet_self]
                rw [← haid] at hb0
                linarith
              · rw [← haid, budGet_budSet_self]
                rw [hcapc] at hgle
                rw [← hamax]
                linarith
            · -- the heal went to a different entity than the tracked ally
              have hane : ally.id ≠ tgt.id := by
                rw [← haid]
                exact nodup_ids_get_ne hlnd hat hjget (fun h0 => hjt h0.symm)
              have hbud2 : Enemies.budGet (Enemies.budSet b tgt.id
                  (Enemies.budGet b tgt.id + grant)) ally.id =
                  Enemies.budGet b ally.id :=
                budGet_budSet_ne b tgt.id ally.id _ hane
              refine ih (i + 1) _ _ ?_ ?_ ?_ ?_
              · exact hmap2
              · by_cases hit : i = t
                · subst hit
                  rw [hgi] at hat
                  injection hat with hat
                  subst hat
                  refine ⟨Enemies.integrateClamp dt zW zH
                      (Enemies.updateRepairDroneAI H dt player e l b).1, ?_, ?_, ?_, ?_, ?_⟩
                  · apply List.get?_set_eq_of_lt
                    rw [List.length_set]
                    obtain ⟨hl2, -⟩ := List.get?_eq_some.1 hgi
                    exact hl2
                  · rw [(keyOf_parts hkey2).1]
                    exact haid
                  · rw [(keyOf_parts hkey2).2.2.2.1]
                    exact hamax
                  · rw [hhp2, hbud2]
                    exact hahp
                  · rw [hhp2]
                    exact hahp2
                · refine ⟨a, ?_, haid, hamax, ?_, hahp2⟩
                  · rw [List.get?_set_ne _ _ hit, List.get?_set_ne _ _ hjt]
                    exact hat
                  · rw [hbud2]
                    exact hahp
              · rw [hbud2]
                exact hb0
              · rw [hbud2]
                exact hbc
      · -- dead entity: skipped
        exact ih (i + 1) l b hkey hex hb0 hbc

/-- C9: heal-budget invariant (claim C9).  Within a single `Enemies.update`
tick in exploration mode, for any live ally `ally` of the enemy list (all
repair drones sharing the cap percentage `c`), every survivor carrying the
ally's id has gained at most `ally.maxHP * c * dt` hit points and never
exceeds `ally.maxHP`: the per-target heal budget `hb` caps the combined
healing of all drones at `capPctMaxHpPerSec` of the target's max HP per
second, and `Math.min(best.maxHP, ...)` prevents overheal. -/
theorem heal_budget_bound (H : ℚ → ℚ → ℚ) (explore : HEnemy → HEnemy) (dt : ℚ)
    (player : Pt) (zW zH : ℚ) (enemies : List HEnemy) (t : Nat) (ally : HEnemy)
    (c : ℚ)
    (hexp : ∀ x, keyOf (explore x) = keyOf x ∧ (explore x).hp = x.hp)
    (hnd : (enemies.map (fun e => e.id)).Nodup)
    (hshared : ∀ e0 ∈ enemies, e0.abilities.contains "repairTether" = true →
      (e0.repair.getD ⟨260, 0.03, 0.04⟩).capPctMaxHpPerSec = c)
    (hget : enemies.get? t = some ally)
    (hhp : ally.hp ≤ ally.maxHP) (hdt : 0 ≤ dt) (hmx : 0 ≤ ally.maxHP)
    (hc0 : 0 ≤ c) :
    ∀ a ∈ Enemies.update H explore dt player zW zH enemies, a.id = ally.id →
      a.hp - ally.hp ≤ ally.maxHP * c * dt ∧ a.hp ≤ ally.maxHP := by
  intro a ha haid
  have hcap : (0 : ℚ) ≤ ally.maxHP * c * dt := mul_nonneg (mul_nonneg hmx hc0) hdt
  have hinv := updGo_inv H explore dt player zW zH enemies t ally c hexp hnd hshared
    enemies.length 0 enemies [] rfl
    ⟨ally, hget, rfl, rfl, le_of_eq (add_zero ally.hp).symm, hhp⟩
    (le_refl 0) hcap
  obtain ⟨hkeyR, ⟨a2, hat2, haid2, hamax2, hahpR, hmaxR⟩, hb0R, hbcR⟩ := hinv
  have hmem : a ∈
      (Enemies.updGo H explore dt player zW zH enemies.length 0 enemies []).1 :=
    (List.mem_filter.1 ha).1
  obtain ⟨i, hi⟩ := List.mem_iff_get?.1 hmem
  have hndR : ((Enemies.updGo H explore dt player zW zH
      enemies.length 0 enemies []).1.map (fun e => e.id)).Nodup := by
    rw [map_keyOf_ids hkeyR]
    exact hnd
  have hit : i = t := by
    by_contra hne
    exact nodup_ids_get_ne hndR hi hat2 hne (by rw [haid, haid2])
  subst hit
  rw [hi] at hat2
  injection hat2 with hat2
  subst hat2
  constructor
  · linarith
  · exact hmaxR


unseal Rat.add Rat.sub Rat.mul Rat.inv Rat.ofScientific in
theorem heal_budget_bound_witness :
    [wDrone, wAlly].get? 1 = some wAlly ∧
      ∀ a ∈ Enemies.update (fun _ _ => 0) (fun x => x) 1 ⟨0, 0⟩ 1000 1000
          [wDrone, wAlly], a.id = wAlly.id →
        a.hp - wAlly.hp ≤ wAlly.maxHP * 1 * 1 ∧ a.hp ≤ wAlly.maxHP :=
  ⟨rfl, heal_budget_bound (fun _ _ => 0) (fun x => x) 1 ⟨0, 0⟩ 1000 1000
    [wDrone, wAlly] 1 wAlly 1 (fun x => ⟨rfl, rfl⟩) (by decide) (by decide) rfl
    (by decide) (by decide) (by decide) (by decide)⟩


end ROB
